import Mathlib

/-!
Verification development for the linux-gpib-rs binding layer.

The Rust sources are shallowly embedded: machine integers (`c_int`,
`u16`, `i64`) become `Int`/`Nat` with explicit wrap-around where the
Rust arithmetic can overflow, buffers become `List Nat` (byte values),
fallible operations return `Except GpibError`, and driver-side
out-of-band state (the `ibsta`/`iberr`/`ibcnt`/`ibcntl` variables and
the bytes a native call writes into a caller's buffer) is passed as
explicit arguments to the embedded functions.
-/

namespace LinuxGpibRs

/-! ## Status decoder (src/status.rs)

The bit numbers come from the linux-gpib C header `gpib_user.h`
(`enum ibsta_bit_numbers`), re-exported by the `linux_gpib_sys` crate.
-/

def ibsta_bit_numbers_DCAS_NUM : Nat := 0
def ibsta_bit_numbers_DTAS_NUM : Nat := 1
def ibsta_bit_numbers_LACS_NUM : Nat := 2
def ibsta_bit_numbers_TACS_NUM : Nat := 3
def ibsta_bit_numbers_ATN_NUM : Nat := 4
def ibsta_bit_numbers_CIC_NUM : Nat := 5
def ibsta_bit_numbers_REM_NUM : Nat := 6
def ibsta_bit_numbers_LOK_NUM : Nat := 7
def ibsta_bit_numbers_CMPL_NUM : Nat := 8
def ibsta_bit_numbers_EVENT_NUM : Nat := 9
def ibsta_bit_numbers_SPOLL_NUM : Nat := 10
def ibsta_bit_numbers_RQS_NUM : Nat := 11
def ibsta_bit_numbers_SRQI_NUM : Nat := 12
def ibsta_bit_numbers_END_NUM : Nat := 13
def ibsta_bit_numbers_TIMO_NUM : Nat := 14
def ibsta_bit_numbers_ERR_NUM : Nat := 15

/-- The `IbStatus` struct of src/status.rs: 16 independent flags.
The Rust field `end` is a Lean keyword, so it is named `endFlag` here. -/
structure IbStatus where
  dcas : Bool
  dtas : Bool
  lacs : Bool
  tacs : Bool
  atn : Bool
  cic : Bool
  rem : Bool
  lok : Bool
  cmpl : Bool
  event : Bool
  spoll : Bool
  rqs : Bool
  srqi : Bool
  endFlag : Bool
  timo : Bool
  err : Bool
deriving DecidableEq

/-- `IbStatus::from_ibsta`: each field is `((1 << NUM) & ibsta) != 0`.
The status word is the nonnegative bit pattern of the C `ibsta` value. -/
def IbStatus.from_ibsta (ibsta : Nat) : IbStatus where
  dcas := ((1 <<< ibsta_bit_numbers_DCAS_NUM) &&& ibsta) != 0
  dtas := ((1 <<< ibsta_bit_numbers_DTAS_NUM) &&& ibsta) != 0
  lacs := ((1 <<< ibsta_bit_numbers_LACS_NUM) &&& ibsta) != 0
  tacs := ((1 <<< ibsta_bit_numbers_TACS_NUM) &&& ibsta) != 0
  atn := ((1 <<< ibsta_bit_numbers_ATN_NUM) &&& ibsta) != 0
  cic := ((1 <<< ibsta_bit_numbers_CIC_NUM) &&& ibsta) != 0
  rem := ((1 <<< ibsta_bit_numbers_REM_NUM) &&& ibsta) != 0
  lok := ((1 <<< ibsta_bit_numbers_LOK_NUM) &&& ibsta) != 0
  cmpl := ((1 <<< ibsta_bit_numbers_CMPL_NUM) &&& ibsta) != 0
  event := ((1 <<< ibsta_bit_numbers_EVENT_NUM) &&& ibsta) != 0
  spoll := ((1 <<< ibsta_bit_numbers_SPOLL_NUM) &&& ibsta) != 0
  rqs := ((1 <<< ibsta_bit_numbers_RQS_NUM) &&& ibsta) != 0
  srqi := ((1 <<< ibsta_bit_numbers_SRQI_NUM) &&& ibsta) != 0
  endFlag := ((1 <<< ibsta_bit_numbers_END_NUM) &&& ibsta) != 0
  timo := ((1 <<< ibsta_bit_numbers_TIMO_NUM) &&& ibsta) != 0
  err := ((1 <<< ibsta_bit_numbers_ERR_NUM) &&& ibsta) != 0

/-- One conditional `ibsta = ibsta | (1 << num)` step of `IbStatus::as_ibsta`. -/
def orBitIf (flag : Bool) (num : Nat) (ibsta : Nat) : Nat :=
  if flag then ibsta ||| (1 <<< num) else ibsta

/-- `IbStatus::as_ibsta`: starts from 0 and ors in one bit per set flag,
in the source's order (dcas first). -/
def IbStatus.as_ibsta (s : IbStatus) : Nat :=
  orBitIf s.err ibsta_bit_numbers_ERR_NUM
    (orBitIf s.timo ibsta_bit_numbers_TIMO_NUM
      (orBitIf s.endFlag ibsta_bit_numbers_END_NUM
        (orBitIf s.srqi ibsta_bit_numbers_SRQI_NUM
          (orBitIf s.rqs ibsta_bit_numbers_RQS_NUM
            (orBitIf s.spoll ibsta_bit_numbers_SPOLL_NUM
              (orBitIf s.event ibsta_bit_numbers_EVENT_NUM
                (orBitIf s.cmpl ibsta_bit_numbers_CMPL_NUM
                  (orBitIf s.lok ibsta_bit_numbers_LOK_NUM
                    (orBitIf s.rem ibsta_bit_numbers_REM_NUM
                      (orBitIf s.cic ibsta_bit_numbers_CIC_NUM
                        (orBitIf s.atn ibsta_bit_numbers_ATN_NUM
                          (orBitIf s.tacs ibsta_bit_numbers_TACS_NUM
                            (orBitIf s.lacs ibsta_bit_numbers_LACS_NUM
                              (orBitIf s.dtas ibsta_bit_numbers_DTAS_NUM
                                (orBitIf s.dcas ibsta_bit_numbers_DCAS_NUM 0)))))))))))))))

/-- `IbStatus::default`: every flag false. -/
def IbStatus.default : IbStatus where
  dcas := false
  dtas := false
  lacs := false
  tacs := false
  atn := false
  cic := false
  rem := false
  lok := false
  cmpl := false
  event := false
  spoll := false
  rqs := false
  srqi := false
  endFlag := false
  timo := false
  err := false

def IbStatus.with_cmpl (s : IbStatus) (cmpl : Bool) : IbStatus := { s with cmpl := cmpl }

def IbStatus.with_rqs (s : IbStatus) (rqs : Bool) : IbStatus := { s with rqs := rqs }

/-- `with_end` of the source (the field is `endFlag` here). -/
def IbStatus.with_end (s : IbStatus) (endFlag : Bool) : IbStatus := { s with endFlag := endFlag }

def IbStatus.with_timo (s : IbStatus) (timo : Bool) : IbStatus := { s with timo := timo }

/-- The flag-by-flag description built by `impl fmt::Debug for IbStatus`. -/
def IbStatus.debugDescription (s : IbStatus) : String :=
  let d := ""
  let d := if s.dcas then d ++ "DCAS (device clear) " else d
  let d := if s.dtas then d ++ "DTAS (device trigger) " else d
  let d := if s.lacs then d ++ "LACS (board is currently addressed as a listener) " else d
  let d := if s.tacs then d ++ "TACS (board is currently addressed as a talker) " else d
  let d := if s.atn then d ++ "ATN (ATN line is asserted) " else d
  let d := if s.cic then d ++ "CIC (board is controller-in-charge, able to set the ATN line) " else d
  let d := if s.rem then d ++ "REM (board is in 'remote' state) " else d
  let d := if s.lok then d ++ "LOK (board is in 'lockout' state) " else d
  let d := if s.cmpl then d ++ "CMPL (I/O operation complete) " else d
  let d := if s.event then d ++ "EVENT (one or more clear, trigger, or interface clear event received) " else d
  let d := if s.spoll then d ++ "SPOLL (board is serial polled) " else d
  let d := if s.rqs then d ++ "RQS (device has requested service) " else d
  let d := if s.srqi then d ++ "SRQI (a device connected to the board is asserting the SRQ line) " else d
  let d := if s.endFlag then d ++ "END (last I/O operation ended with the EOI line asserted) " else d
  let d := if s.timo then d ++ "TIMO (last I/O operation, or ibwait, timed out) " else d
  let d := if s.err then d ++ "ERR (last function call failed)" else d
  if d.length > 0 then "IbStatus(" ++ d ++ ")" else "IbStatus(No flag set)"

/-! ## Error decoder (src/error.rs) -/

/-- The `IbError` enum: the closed set of named driver error kinds.
`EDVR` and `EFSO` carry the secondary `ibcntl` value. -/
inductive IbError where
  | EDVR (ibcntl : Int)
  | ECIC
  | ENOL
  | EADR
  | EARG
  | ESAC
  | EABO
  | ENEB
  | EDMA
  | EOIP
  | ECAP
  | EFSO (ibcntl : Int)
  | EBUS
  | ESTB
  | ESRQ
  | ETAB
deriving DecidableEq

/-- The `GpibError` enum. The `TokioError` variant (async worker
infrastructure failure) wraps a runtime value with no pure content and is
not modelled. -/
inductive GpibError where
  | DriverError (status : IbStatus) (error : IbError)
  | Timeout
  | ValueError (desc : String)
deriving DecidableEq

/-- Rust formats a negative `i64` with `{:x}` as its two's-complement bit
pattern; `Nat.toDigits 16` is lowercase hex like Rust's. -/
def lowerHex (val : Int) : String :=
  if 0 ≤ val then ⟨Nat.toDigits 16 val.toNat⟩
  else ⟨Nat.toDigits 16 (val + 18446744073709551616).toNat⟩

/-- `edvr_description` of src/error.rs: a lookup of well-known vendor
diagnostic values of `ibcntl`, matching each value both as unsigned hex and
as the sign-extended `i64`. -/
def edvr_description (val : Int) : String :=
  if val = 0xE014002C ∨ val = -535560148 then
    "ibcntl = 0xE014002C: a call is made with a board number that is within the range of allowed board numbers, but which has not been assigned to a GPIB interface"
  else if val = 0xE0140025 ∨ val = -535560155 then
    "ibcntl = 0xE0140025: a call is made with a board number that is not within the range of allowed board numbers"
  else if val = 0xE0140035 ∨ val = -535560139 then
    "ibcntl = 0XE0140035: a call is made with a device name that is not listed in the logical device templates"
  else if val = 0xE1080080 ∨ val = -519569280 ∨ val = 0xE1080081 ∨ val = -519569279 then
    "ibcntl = " ++ lowerHex val ++ ": you are using a removable interface (for example, a GPIB-USB-HS) and you removed or ejected the interface while the software is trying to communicate with it"
  else if val = 0xE00A0047 ∨ val = -536215481 then
    "ibcntl = 0xE00A0047: the driver encounters an access violation when attempting to access an object supplied by the user. This can happen if the user's buffer does not have appropriate read/write characteristics. For example, this error is returned if a required pointer passed to a call is NULL."
  else if val = 0xE1030043 ∨ val = -519897021 then
    "ibcntl = 0xE1030043: you have enabled DOS NI-488.2 support and attempted to run an existing DOS NI-488.2 application that was compiled with an older, unsupported DOS application interface"
  else if val = 0xE1060075 ∨ val = -519700363 then
    "ibcntl = 0xE1060075: the driver is unable to communicate with a GPIB-ENET/100 during an ibfind or ibdev"
  else if val = 0xE1060078 ∨ val = -519700360 then
    "ibcntl = 0xE1060078: you are using a GPIB-ENET/100 and the network link is broken between the host and the GPIB-ENET/100 interface"
  else
    "unknown ibcntl value " ++ lowerHex val

/-- `IbError::from_iberr` (linuxgpib feature): decodes the `iberr` code.
The read of the out-of-band `ibcntl` variable (used by codes 0 and 12) is
passed explicitly. -/
def IbError.from_iberr (iberr : Int) (ibcntl : Int) : Except GpibError IbError :=
  if iberr = 0 then .ok (.EDVR ibcntl)
  else if iberr = 1 then .ok .ECIC
  else if iberr = 2 then .ok .ENOL
  else if iberr = 3 then .ok .EADR
  else if iberr = 4 then .ok .EARG
  else if iberr = 5 then .ok .ESAC
  else if iberr = 6 then .ok .EABO
  else if iberr = 7 then .ok .ENEB
  else if iberr = 8 then .ok .EDMA
  else if iberr = 10 then .ok .EOIP
  else if iberr = 11 then .ok .ECAP
  else if iberr = 12 then .ok (.EFSO ibcntl)
  else if iberr = 14 then .ok .EBUS
  else if iberr = 15 then .ok .ESTB
  else if iberr = 16 then .ok .ESRQ
  else if iberr = 20 then .ok .ETAB
  else .error (.ValueError ("Unexpected iberr value = " ++ toString iberr ++ "."))

/-- The set of `iberr` codes `from_iberr` recognizes. -/
def knownIberrCodes : List Int := [0, 1, 2, 3, 4, 5, 6, 7, 8, 10, 11, 12, 14, 15, 16, 20]

/-! ## Address types (src/types.rs) -/

/-- `PrimaryAddress` holds a validated `c_int`. -/
structure PrimaryAddress where
  pad : Int
deriving DecidableEq

/-- `PrimaryAddress::new`: accepts `0 <= pad <= 30`. -/
def PrimaryAddress.new (pad : Int) : Except GpibError PrimaryAddress :=
  if 0 ≤ pad ∧ pad ≤ 30 then .ok ⟨pad⟩
  else .error (.ValueError ("Primary address must be between 0 and 30. Got: " ++ toString pad ++ "."))

def PrimaryAddress.as_pad (p : PrimaryAddress) : Int := p.pad

/-- `SecondaryAddress` holds the driver's wire encoding of the secondary
address (0, or a value biased by 0x60). -/
structure SecondaryAddress where
  sad : Int
deriving DecidableEq

/-- The error text shared by both rejection branches of `SecondaryAddress::new`. -/
def secondaryAddressDesc : String :=
  "Secondary address must be between 0 and 30 (without the 0x60 prefix), or equivalently between 0x60 and 0x7e (with the 0x60 addition). sad = 0 disables secondary address."

/-- `SecondaryAddress::new`: 0 disables, 1..=30 is biased by 0x60,
0x60..=0x7e is kept; everything else is rejected. -/
def SecondaryAddress.new (sad : Int) : Except GpibError SecondaryAddress :=
  if sad < 0 then .error (.ValueError secondaryAddressDesc)
  else if sad = 0 then .ok ⟨sad⟩
  else if sad ≤ 30 then .ok ⟨sad + 0x60⟩
  else if 0x60 ≤ sad ∧ sad ≤ 0x7e then .ok ⟨sad⟩
  else .error (.ValueError secondaryAddressDesc)

def SecondaryAddress.as_sad (s : SecondaryAddress) : Int := s.sad

/-- `SecondaryAddress::default`: disabled secondary address. -/
def SecondaryAddress.dflt : SecondaryAddress := ⟨0⟩

/-! ## Address packing (src/lowlevel/utility.rs) -/

/-- The linux-gpib end-of-list sentinel `NOADDR`, `(Addr4882_t)-1 = 0xffff`
in the C header (re-exported by `linux_gpib_sys`). -/
def NOADDR : Nat := 0xffff

/-- `MakeAddr`: primary in the low byte, secondary in the high byte.
The arguments are `u16` values (Nat below 2^16); the `u16` shift wraps,
written as an explicit `% 2^16`. -/
def MakeAddr (pad sad : Nat) : Nat :=
  let first_part := pad &&& 0xff
  let second_part := ((sad <<< 8) % 65536) &&& 0xff00
  first_part ||| second_part

/-- `GetPAD`: the low byte. -/
def GetPAD (address : Nat) : Nat := address &&& 0xff

/-- `GetSAD`: the high byte. -/
def GetSAD (address : Nat) : Nat := (address >>> 8) &&& 0xff

/-- `Addr4882` wraps a raw `Addr4882_t` token. -/
structure Addr4882 where
  addr : Nat
deriving DecidableEq

/-- The `ValueError` text Rust's `From<TryFromIntError>` conversion produces. -/
def tryFromIntErrorDesc : String := "TryFromIntError(())"

/-- `Addr4882::new`: `try_into` converts the validated `c_int` fields to
`u16` (failing on values outside `0..=0xffff`), then packs with `MakeAddr`. -/
def Addr4882.new (primary_address : PrimaryAddress) (secondary_address : SecondaryAddress) :
    Except GpibError Addr4882 :=
  if 0 ≤ primary_address.as_pad ∧ primary_address.as_pad ≤ 0xffff then
    if 0 ≤ secondary_address.as_sad ∧ secondary_address.as_sad ≤ 0xffff then
      .ok ⟨MakeAddr primary_address.as_pad.toNat secondary_address.as_sad.toNat⟩
    else .error (.ValueError tryFromIntErrorDesc)
  else .error (.ValueError tryFromIntErrorDesc)

/-- `Addr4882::no_addr`. -/
def Addr4882.no_addr : Addr4882 := ⟨NOADDR⟩

/-- `Addr4882::pad`. -/
def Addr4882.pad (a : Addr4882) : Nat := GetPAD a.addr

/-- `Addr4882::sad`. -/
def Addr4882.sad (a : Addr4882) : Nat := GetSAD a.addr

/-- `Addr4882::primary_address`. -/
def Addr4882.primary_address (a : Addr4882) : Except GpibError PrimaryAddress :=
  PrimaryAddress.new a.pad

/-- `Addr4882::secondary_address`. -/
def Addr4882.secondary_address (a : Addr4882) : Except GpibError SecondaryAddress :=
  SecondaryAddress.new a.sad

/-! ## Timeout levels (src/types.rs) -/

/-- The 18-level `IbTimeout` enumeration. -/
inductive IbTimeout where
  | TNone
  | T10us
  | T30us
  | T100us
  | T300us
  | T1ms
  | T3ms
  | T10ms
  | T30ms
  | T100ms
  | T300ms
  | T1s
  | T3s
  | T10s
  | T30s
  | T100s
  | T300s
  | T1000s
deriving DecidableEq

/-- `Duration::MAX` in nanoseconds: `u64::MAX` seconds plus `10^9 - 1`
nanoseconds. `Duration` ordering is its total-nanosecond ordering. -/
def durationMaxNanos : Nat := 18446744073709551615 * 1000000000 + 999999999

/-- `IbTimeout::as_duration`, in nanoseconds. -/
def IbTimeout.as_duration : IbTimeout → Nat
  | .TNone => durationMaxNanos
  | .T10us => 10 * 1000
  | .T30us => 30 * 1000
  | .T100us => 100 * 1000
  | .T300us => 300 * 1000
  | .T1ms => 1 * 1000000
  | .T3ms => 3 * 1000000
  | .T10ms => 10 * 1000000
  | .T30ms => 30 * 1000000
  | .T100ms => 100 * 1000000
  | .T300ms => 300 * 1000000
  | .T1s => 1 * 1000000000
  | .T3s => 3 * 1000000000
  | .T10s => 10 * 1000000000
  | .T30s => 30 * 1000000000
  | .T100s => 100 * 1000000000
  | .T300s => 300 * 1000000000
  | .T1000s => 1000 * 1000000000

/-- The array the `for` loop of `IbTimeout::closest_from` iterates, in
source order (every level except `TNone`, ascending). -/
def closestFromCandidates : List IbTimeout :=
  [.T10us, .T30us, .T100us, .T300us, .T1ms, .T3ms, .T10ms, .T30ms, .T100ms,
   .T300ms, .T1s, .T3s, .T10s, .T30s, .T100s, .T300s, .T1000s]

/-- The loop body: return the first candidate with `as_duration >= timeout`;
falling off the end returns `TNone` (after a log warning). -/
def closestFromLoop (timeout : Nat) : List IbTimeout → IbTimeout
  | [] => .TNone
  | tmo :: rest => if tmo.as_duration ≥ timeout then tmo else closestFromLoop timeout rest

/-- `IbTimeout::closest_from` over a duration in nanoseconds. -/
def IbTimeout.closest_from (timeout : Nat) : IbTimeout :=
  closestFromLoop timeout closestFromCandidates

/-! ## Asynchronous completion layer (src/asynchronous.rs)

The native calls report through out-of-band state; each embedded operation
takes the status word each call would produce and the fetched error as
explicit arguments.
-/

/-- `wait`'s tail: after the native `ibwait` returns `status`, an `ERR`
flag turns the (explicitly passed) fetched error into a `DriverError`;
otherwise the status is returned. -/
def wait_outcome (status : IbStatus) (fetchedError : Except GpibError IbError) :
    Except GpibError IbStatus :=
  if status.err then
    match fetchedError with
    | .error e => .error e
    | .ok e => .error (.DriverError status e)
  else .ok status

/-- The wait mask `write` passes: `{TIMO, CMPL, END, RQS}`. -/
def write_wait_mask : IbStatus :=
  (((IbStatus.default.with_timo true).with_cmpl true).with_end true).with_rqs true

/-- The wait mask `read` passes: `{TIMO, CMPL, END}`. -/
def read_wait_mask : IbStatus :=
  ((IbStatus.default.with_timo true).with_cmpl true).with_end true

/-- `write` of src/asynchronous.rs: `issueStatus` is the status `ibwrta`
returns, `waitStatus` the status the wait on `write_wait_mask` wakes with,
and the two fetched errors model the out-of-band error reads on the
respective `ERR` paths. -/
def write (issueStatus : IbStatus) (issueError : Except GpibError IbError)
    (waitStatus : IbStatus) (waitError : Except GpibError IbError) :
    Except GpibError Unit :=
  if issueStatus.err then
    match issueError with
    | .error e => .error e
    | .ok e => .error (.DriverError issueStatus e)
  else
    match wait_outcome waitStatus waitError with
    | .error e => .error e
    | .ok status =>
      if status.timo then .error .Timeout
      else if status.cmpl || status.endFlag then .ok ()
      else .error (.ValueError ("Unexpected status after waiting: " ++ status.debugDescription))

/-- The fixed chunk capacity of the asynchronous `read`. -/
def BUFFER_SIZE : Nat := 1024

/-- One loop iteration's driver behavior for the asynchronous `read`:
the status `ibrda` returns, the status the wait wakes with, and the first
`ibcntl` bytes the driver wrote into the 1024-byte chunk buffer. -/
structure ReadReply where
  issueStatus : IbStatus
  waitStatus : IbStatus
  data : List Nat
  fetchedError : Except GpibError IbError := .ok (.EDVR 0)

/-- The outcome of the asynchronous `read` loop over the modelled driver:
the accumulated bytes with the number of chunk requests issued, a failure,
or `pending` when the modelled reply list runs out while the loop would
request another chunk (the real code would block on the driver). -/
inductive ReadOutcome where
  | ok (result : List Nat) (requests : Nat)
  | fail (e : GpibError)
  | pending
deriving DecidableEq

/-- The `loop` of `read` in src/asynchronous.rs. Each iteration issues one
chunk request (`ibrda`), fails on `ERR` or `TIMO`, extends `result` with
the `n_read` bytes when `n_read > 0`, and breaks when the `END` flag is
set, or `n_read < BUFFER_SIZE`, or `n_read == 0`. -/
def read_loop : List ReadReply → List Nat → Nat → ReadOutcome
  | [], _, _ => .pending
  | r :: rest, result, requests =>
    if r.issueStatus.err then
      match r.fetchedError with
      | .error e => .fail e
      | .ok e => .fail (.DriverError r.issueStatus e)
    else
      match wait_outcome r.waitStatus r.fetchedError with
      | .error e => .fail e
      | .ok status =>
        if status.timo then .fail .Timeout
        else
          let n_read := r.data.length
          let result := if n_read > 0 then result ++ r.data else result
          if status.endFlag || decide (n_read < BUFFER_SIZE) || decide (n_read = 0) then
            .ok result (requests + 1)
          else read_loop rest result (requests + 1)

/-- `read` of src/asynchronous.rs, started with an empty accumulator.
(The final `String::from_utf8` text decoding is outside the loop and not
part of the chunking claims.) -/
def read (replies : List ReadReply) : ReadOutcome :=
  read_loop replies [] 0

/-! ## Multidevice API (src/lowlevel/multidevice.rs)

Every list operation builds the native address list the same way:
`addresses.iter().map(|a| a.addr).collect()` followed by
`push(NOADDR)`. Each marshaling is embedded under its operation's name.
-/

/-- The `padList` marshaled by `FindLstn` (map to raw tokens, push `NOADDR`). -/
def FindLstn_padList (padList : List Addr4882) : List Nat :=
  (padList.map fun a => a.addr) ++ [NOADDR]

/-- The `instruments` list marshaled by `DevClearList`. -/
def DevClearList_instruments (addresses : List Addr4882) : List Nat :=
  (addresses.map fun a => a.addr) ++ [NOADDR]

/-- The `instruments` list marshaled by `EnableLocal`. -/
def EnableLocal_instruments (addresses : List Addr4882) : List Nat :=
  (addresses.map fun a => a.addr) ++ [NOADDR]

/-- The `instruments` list marshaled by `EnableRemote`. -/
def EnableRemote_instruments (addresses : List Addr4882) : List Nat :=
  (addresses.map fun a => a.addr) ++ [NOADDR]

/-- The `instruments` list marshaled by `ResetSys`. -/
def ResetSys_instruments (addresses : List Addr4882) : List Nat :=
  (addresses.map fun a => a.addr) ++ [NOADDR]

/-- The `instruments` list marshaled by `SendList`. -/
def SendList_instruments (addresses : List Addr4882) : List Nat :=
  (addresses.map fun a => a.addr) ++ [NOADDR]

/-- The `instruments` list marshaled by `TriggerList`. -/
def TriggerList_instruments (addresses : List Addr4882) : List Nat :=
  (addresses.map fun a => a.addr) ++ [NOADDR]

/-- `FindLstn`'s result handling. `resultWritten` is the 31-slot result
buffer after the native call (initialized to `NOADDR`, the driver writes
the found addresses into a prefix), `ibcntl` the driver-reported count.
On the non-`ERR` path the buffer is truncated to `ibcntl` (a negative
count fails the `usize` conversion) and wrapped. -/
def FindLstn (status : IbStatus) (fetchedError : Except GpibError IbError)
    (resultWritten : List Nat) (ibcntl : Int) : Except GpibError (List Addr4882) :=
  if status.err then
    match fetchedError with
    | .error e => .error e
    | .ok e => .error (.DriverError status e)
  else if ibcntl < 0 then .error (.ValueError tryFromIntErrorDesc)
  else .ok ((resultWritten.take ibcntl.toNat).map Addr4882.mk)

/-- The `padList` `FindAllLstn` builds before calling `FindLstn`: one
`Addr4882` per primary address in the Rust range `1..31`, each with the
default (disabled) secondary address. `List.range' 1 30` is `[1, ..., 30]`. -/
def FindAllLstn_padList : Except GpibError (List Addr4882) :=
  (List.range' 1 30).mapM fun pad => do
    let p ← PrimaryAddress.new (pad : Int)
    Addr4882.new p SecondaryAddress.dflt

/-- `FindRQS`: on the non-`ERR` path the driver-reported index (`ibcnt`,
converted to `usize`) is validated against the caller's list length
before the list is indexed; the in-range case returns the address at the
index together with the serial-poll status byte. -/
def FindRQS (addresses : List Addr4882) (status : IbStatus)
    (fetchedError : Except GpibError IbError) (ibcnt : Int) (status_byte : Int) :
    Except GpibError (Addr4882 × Int) :=
  if status.err then
    match fetchedError with
    | .error e => .error e
    | .ok e => .error (.DriverError status e)
  else if ibcnt < 0 then .error (.ValueError tryFromIntErrorDesc)
  else
    let index := ibcnt.toNat
    if index ≥ addresses.length then
      .error (.ValueError "index stored in Ibcnt is larger than addresses array length")
    else .ok (addresses.getD index Addr4882.no_addr, status_byte)

/-! ## VISA strings (src/instrument.rs)

Strings are embedded as `List Char`. `splitColons` models Rust's
`str::split("::")` collected to a `Vec` (greedy left-to-right,
non-overlapping matches); the decimal formatter and parser model Rust's
`i32` `Display` and `i32::from_str_radix(s, 10)`.
-/

/-- `address.split("::").collect::<Vec<_>>()`. -/
def splitColons : List Char → List (List Char)
  | [] => [[]]
  | [c] => [[c]]
  | c1 :: c2 :: rest =>
    if c1 = ':' ∧ c2 = ':' then [] :: splitColons rest
    else
      match splitColons (c2 :: rest) with
      | [] => [[c1]]
      | h :: t => (c1 :: h) :: t

/-- An ASCII decimal digit, as `char::to_digit(10)` accepts. -/
def isDecDigit (c : Char) : Bool := '0' ≤ c && c ≤ '9'

/-- The accumulating digit loop of `from_str_radix`: every character must
be a decimal digit. -/
def parseDigitsAcc : List Char → Nat → Option Nat
  | [], acc => some acc
  | c :: rest, acc =>
    if isDecDigit c then parseDigitsAcc rest (acc * 10 + (c.toNat - 48)) else none

/-- A nonempty all-digit run (Rust errors on an empty digit run). -/
def parseDigits : List Char → Option Nat
  | [] => none
  | s => parseDigitsAcc s 0

/-- `i32::from_str_radix(s, 10)`: an optional sign, then a nonempty digit
run; values outside the `i32` range are an overflow error. -/
def from_str_radix_i32 (s : List Char) : Option Int :=
  match s with
  | [] => none
  | c :: rest =>
    if c = '+' then
      match parseDigits rest with
      | none => none
      | some n => if n ≤ 2147483647 then some (n : Int) else none
    else if c = '-' then
      match parseDigits rest with
      | none => none
      | some n => if n ≤ 2147483648 then some (-(n : Int)) else none
    else
      match parseDigits (c :: rest) with
      | none => none
      | some n => if n ≤ 2147483647 then some (n : Int) else none

/-- The decimal digit character for `d < 10`. -/
def decDigitChar (d : Nat) : Char := Char.ofNat (48 + d)

/-- Rust's decimal formatting of an unsigned integer (most significant
digit first, `"0"` for zero). -/
def natDecimal (n : Nat) : List Char :=
  if n = 0 then ['0'] else ((Nat.digits 10 n).map decDigitChar).reverse

/-- Rust's `Display` for a signed integer: a minus sign then the decimal
digits of the absolute value. -/
def intDecimal (i : Int) : List Char :=
  if i < 0 then '-' :: natDecimal i.natAbs else natDecimal i.toNat

/-- The `Board` convenience type: a bare board index. -/
structure Board where
  board_number : Int
deriving DecidableEq

/-- The `Instrument` convenience type: a board plus a packed address. -/
structure Instrument where
  board : Board
  addr : Addr4882
deriving DecidableEq

/-- `Instrument::from_visa_string`: split on `"::"`, require at least two
segments, require the first to start with `"GPIB"`, parse the board index
from its remainder and the primary address from the second segment, and
pack the validated primary with a disabled secondary address. -/
def Instrument.from_visa_string (address : List Char) : Except GpibError Instrument :=
  let v := splitColons address
  if v.length < 2 then .error (.ValueError ("Invalid address '" ++ ⟨address⟩ ++ "'."))
  else
    let v0 := v.getD 0 []
    if v0.take 4 = ['G', 'P', 'I', 'B'] then
      match from_str_radix_i32 (v0.drop 4) with
      | none =>
        .error (.ValueError ("Unable to parse GPIB Board index from string '" ++ ⟨v0.drop 4⟩ ++ "'"))
      | some board_number =>
        match from_str_radix_i32 (v.getD 1 []) with
        | none =>
          .error (.ValueError ("Unable to parse GPIB primary address from string '" ++ ⟨v.getD 1 []⟩ ++ "'"))
        | some primary_address => do
          let p ← PrimaryAddress.new primary_address
          let a ← Addr4882.new p SecondaryAddress.dflt
          .ok ⟨⟨board_number⟩, a⟩
    else .error (.ValueError "Address is expected as GPIBN::primary_address::INSTR")

/-- `Instrument::visa_string`: `format!("GPIB{}::{}::INSTR", board, pad)`. -/
def Instrument.visa_string (i : Instrument) : List Char :=
  ['G', 'P', 'I', 'B'] ++ intDecimal i.board.board_number
    ++ [':', ':'] ++ natDecimal i.addr.pad ++ [':', ':'] ++ ['I', 'N', 'S', 'T', 'R']

/-! ## Theorems -/

/-- C1: after the asynchronous write's wait on the mask {TIMO, CMPL, END,
RQS} returns a non-ERR status, a set TIMO flag resolves to the Timeout
failure; otherwise a set CMPL or END flag resolves to success; every other
flag combination (including no flag set) resolves to a ValueError
describing the unexpected status and is never treated as success. -/
theorem write_completion_policy (issueStatus waitStatus : IbStatus)
    (issueError waitError : Except GpibError IbError)
    (hIssue : issueStatus.err = false) (hWait : waitStatus.err = false) :
    (waitStatus.timo = true →
      write issueStatus issueError waitStatus waitError = .error .Timeout) ∧
    (waitStatus.timo = false → waitStatus.cmpl = true ∨ waitStatus.endFlag = true →
      write issueStatus issueError waitStatus waitError = .ok ()) ∧
    (waitStatus.timo = false → waitStatus.cmpl = false → waitStatus.endFlag = false →
      write issueStatus issueError waitStatus waitError =
        .error (.ValueError ("Unexpected status after waiting: " ++ waitStatus.debugDescription)) ∧
      write issueStatus issueError waitStatus waitError ≠ .ok ()) ∧
    (write_wait_mask.timo = true ∧ write_wait_mask.cmpl = true ∧
      write_wait_mask.endFlag = true ∧ write_wait_mask.rqs = true ∧
      write_wait_mask.err = false ∧ write_wait_mask.dcas = false ∧
      write_wait_mask.dtas = false ∧ write_wait_mask.lacs = false ∧
      write_wait_mask.tacs = false ∧ write_wait_mask.atn = false ∧
      write_wait_mask.cic = false ∧ write_wait_mask.rem = false ∧
      write_wait_mask.lok = false ∧ write_wait_mask.event = false ∧
      write_wait_mask.spoll = false ∧ write_wait_mask.srqi = false) := by
  refine ⟨?_, ?_, ?_, by decide⟩
  · intro ht
    simp [write, wait_outcome, hIssue, hWait, ht]
  · intro ht hce
    rcases hce with hc | he
    · simp [write, wait_outcome, hIssue, hWait, ht, hc]
    · simp [write, wait_outcome, hIssue, hWait, ht, he]
  · intro ht hc he
    simp [write, wait_outcome, hIssue, hWait, ht, hc, he]

/-- Witness for C1: the four mock wait outcomes {TIMO}, {CMPL}, {END},
{} resolve to Timeout, success, success and ValueError respectively. -/
theorem write_completion_policy_witness :
    (write IbStatus.default (.ok (.EDVR 0)) (IbStatus.default.with_timo true) (.ok (.EDVR 0)) =
      .error .Timeout) ∧
    (write IbStatus.default (.ok (.EDVR 0)) (IbStatus.default.with_cmpl true) (.ok (.EDVR 0)) =
      .ok ()) ∧
    (write IbStatus.default (.ok (.EDVR 0)) (IbStatus.default.with_end true) (.ok (.EDVR 0)) =
      .ok ()) ∧
    (write IbStatus.default (.ok (.EDVR 0)) IbStatus.default (.ok (.EDVR 0)) ≠ .ok ()) := by
  refine ⟨?_, ?_, ?_, ?_⟩
  · exact (write_completion_policy IbStatus.default (IbStatus.default.with_timo true)
      (.ok (.EDVR 0)) (.ok (.EDVR 0)) rfl rfl).1 rfl
  · exact (write_completion_policy IbStatus.default (IbStatus.default.with_cmpl true)
      (.ok (.EDVR 0)) (.ok (.EDVR 0)) rfl rfl).2.1 rfl (Or.inl rfl)
  · exact (write_completion_policy IbStatus.default (IbStatus.default.with_end true)
      (.ok (.EDVR 0)) (.ok (.EDVR 0)) rfl rfl).2.1 rfl (Or.inr rfl)
  · exact ((write_completion_policy IbStatus.default IbStatus.default
      (.ok (.EDVR 0)) (.ok (.EDVR 0)) rfl rfl).2.2.1 rfl rfl rfl).2

/-- The loop returns `TNone` when no candidate duration reaches `timeout`. -/
theorem closestFromLoop_all_below (timeout : Nat) (l : List IbTimeout)
    (h : ∀ t ∈ l, t.as_duration < timeout) : closestFromLoop timeout l = .TNone := by
  induction l with
  | nil => rfl
  | cons a rest ih =>
    have ha : ¬a.as_duration ≥ timeout := by
      have := h a (List.mem_cons_self a rest)
      omega
    simp only [closestFromLoop]
    rw [if_neg ha]
    exact ih fun t ht => h t (List.mem_cons_of_mem a ht)

/-- Over a list sorted by `as_duration`, the loop's first hit is the
least candidate whose duration reaches `timeout`. -/
theorem closestFromLoop_min (timeout : Nat) (l : List IbTimeout)
    (hsort : l.Pairwise fun a b => a.as_duration ≤ b.as_duration)
    (hex : ∃ t ∈ l, timeout ≤ t.as_duration) :
    closestFromLoop timeout l ∈ l ∧
    timeout ≤ (closestFromLoop timeout l).as_duration ∧
    ∀ t ∈ l, timeout ≤ t.as_duration →
      (closestFromLoop timeout l).as_duration ≤ t.as_duration := by
  induction l with
  | nil => simp at hex
  | cons a rest ih =>
    by_cases ha : a.as_duration ≥ timeout
    · simp only [closestFromLoop]
      rw [if_pos ha]
      refine ⟨List.mem_cons_self a rest, ha, ?_⟩
      intro t ht _
      rcases List.mem_cons.mp ht with h | h
      · exact h ▸ le_refl _
      · exact (List.pairwise_cons.mp hsort).1 t h
    · have hex' : ∃ t ∈ rest, timeout ≤ t.as_duration := by
        obtain ⟨t, ht, hle⟩ := hex
        rcases List.mem_cons.mp ht with h | h
        · exact absurd (h ▸ hle) ha
        · exact ⟨t, h, hle⟩
      simp only [closestFromLoop]
      rw [if_neg ha]
      obtain ⟨hmem, hub, hmin⟩ := ih (List.pairwise_cons.mp hsort).2 hex'
      refine ⟨List.mem_cons_of_mem a hmem, hub, ?_⟩
      intro t ht hle
      rcases List.mem_cons.mp ht with h | h
      · exact absurd (h ▸ hle) ha
      · exact hmin t h hle

/-- C10: for every duration of at most 1000 seconds, `closest_from`
returns the enumerated level with the smallest `as_duration` that is at
least the requested duration, and never `TNone`; for every duration
strictly over 1000 seconds it returns `TNone`. -/
theorem closest_from_minimal (d : Nat) :
    (d ≤ 1000 * 1000000000 →
      IbTimeout.closest_from d ≠ .TNone ∧
      d ≤ (IbTimeout.closest_from d).as_duration ∧
      ∀ t : IbTimeout, t ≠ .TNone → d ≤ t.as_duration →
        (IbTimeout.closest_from d).as_duration ≤ t.as_duration) ∧
    (1000 * 1000000000 < d → IbTimeout.closest_from d = .TNone) := by
  constructor
  · intro hd
    have hsort : closestFromCandidates.Pairwise
        fun a b => a.as_duration ≤ b.as_duration := by decide
    have hex : ∃ t ∈ closestFromCandidates, d ≤ t.as_duration :=
      ⟨.T1000s, by decide, by simpa [IbTimeout.as_duration] using hd⟩
    obtain ⟨hmem, hub, hmin⟩ := closestFromLoop_min d closestFromCandidates hsort hex
    have hnone : IbTimeout.TNone ∉ closestFromCandidates := by decide
    refine ⟨fun h => hnone (h ▸ hmem), hub, ?_⟩
    intro t ht hle
    have htmem : t ∈ closestFromCandidates := by
      cases t <;> first | exact absurd rfl ht | decide
    exact hmin t htmem hle
  · intro hd
    have hall : ∀ t ∈ closestFromCandidates, t.as_duration < d := by
      have : ∀ t ∈ closestFromCandidates, t.as_duration ≤ 1000 * 1000000000 := by decide
      intro t ht
      have := this t ht
      omega
    exact closestFromLoop_all_below d closestFromCandidates hall

/-- Witness for C10: 2 seconds rounds up to the 3-second level, and 1001
seconds yields no timeout at all. -/
theorem closest_from_minimal_witness :
    IbTimeout.closest_from (2 * 1000000000) = .T3s ∧
    IbTimeout.closest_from (1001 * 1000000000) = .TNone := by
  constructor
  · have h := (closest_from_minimal (2 * 1000000000)).1 (by norm_num)
    have hmin := h.2.2 .T3s (by simp) (by simp [IbTimeout.as_duration])
    have hub := h.2.1
    revert hmin hub
    cases hc : IbTimeout.closest_from (2 * 1000000000) <;>
      simp_all [IbTimeout.as_duration, durationMaxNanos]
  · exact (closest_from_minimal (1001 * 1000000000)).2 (by norm_num)

/-- C6: `PrimaryAddress::new` accepts exactly the integers in [0, 30]
(rejecting 31 in particular with a descriptive ValueError), and
`SecondaryAddress::new` accepts 0 (disabled), [1, 30] (stored biased by
0x60) and already-biased [0x60, 0x7e], rejecting every other input —
negative values and unbiased 31 in particular. -/
theorem address_constructor_validation (pad sad : Int) :
    ((∃ v, PrimaryAddress.new pad = .ok v) ↔ 0 ≤ pad ∧ pad ≤ 30) ∧
    (0 ≤ pad → pad ≤ 30 → PrimaryAddress.new pad = .ok ⟨pad⟩) ∧
    (PrimaryAddress.new 31 =
      .error (.ValueError "Primary address must be between 0 and 30. Got: 31.")) ∧
    (sad < 0 → SecondaryAddress.new sad = .error (.ValueError secondaryAddressDesc)) ∧
    (SecondaryAddress.new 0 = .ok ⟨0⟩) ∧
    (1 ≤ sad → sad ≤ 30 → SecondaryAddress.new sad = .ok ⟨sad + 0x60⟩) ∧
    (0x60 ≤ sad → sad ≤ 0x7e → SecondaryAddress.new sad = .ok ⟨sad⟩) ∧
    (30 < sad → sad < 0x60 → SecondaryAddress.new sad = .error (.ValueError secondaryAddressDesc)) ∧
    (0x7e < sad → SecondaryAddress.new sad = .error (.ValueError secondaryAddressDesc)) := by
  refine ⟨⟨?_, ?_⟩, ?_, by rfl, ?_, by rfl, ?_, ?_, ?_, ?_⟩
  · rintro ⟨v, hv⟩
    by_contra hc
    rw [PrimaryAddress.new, if_neg hc] at hv
    exact Except.noConfusion hv
  · intro h
    exact ⟨⟨pad⟩, by rw [PrimaryAddress.new, if_pos h]⟩
  · intro h1 h2
    rw [PrimaryAddress.new, if_pos ⟨h1, h2⟩]
  · intro h
    rw [SecondaryAddress.new, if_pos h]
  · intro h1 h2
    rw [SecondaryAddress.new, if_neg (by omega), if_neg (by omega), if_pos h2]
  · intro h1 h2
    rw [SecondaryAddress.new, if_neg (by omega), if_neg (by omega), if_neg (by omega),
      if_pos ⟨h1, h2⟩]
  · intro h1 h2
    rw [SecondaryAddress.new, if_neg (by omega), if_neg (by omega), if_neg (by omega),
      if_neg (by omega)]
  · intro h
    rw [SecondaryAddress.new, if_neg (by omega), if_neg (by omega), if_neg (by omega),
      if_neg (by omega)]

/-- Witness for C6: 17 is accepted as a primary address, 31 is rejected;
secondary 0, 5 (biased to 0x65), 0x65 (kept) are accepted, -1, 31 and
0x7f are rejected. -/
theorem address_constructor_validation_witness :
    PrimaryAddress.new 17 = .ok ⟨17⟩ ∧
    PrimaryAddress.new 31 =
      .error (.ValueError "Primary address must be between 0 and 30. Got: 31.") ∧
    SecondaryAddress.new (-1) = .error (.ValueError secondaryAddressDesc) ∧
    SecondaryAddress.new 0 = .ok ⟨0⟩ ∧
    SecondaryAddress.new 5 = .ok ⟨0x65⟩ ∧
    SecondaryAddress.new 0x65 = .ok ⟨0x65⟩ ∧
    SecondaryAddress.new 31 = .error (.ValueError secondaryAddressDesc) ∧
    SecondaryAddress.new 0x7f = .error (.ValueError secondaryAddressDesc) := by
  have h17 := (address_constructor_validation 17 0).2.1 (by norm_num) (by norm_num)
  have h31 := (address_constructor_validation 17 0).2.2.1
  have hm1 := (address_constructor_validation 0 (-1)).2.2.2.1 (by norm_num)
  have h0 := (address_constructor_validation 0 0).2.2.2.2.1
  have h5 := (address_constructor_validation 0 5).2.2.2.2.2.1 (by norm_num) (by norm_num)
  have h65 := (address_constructor_validation 0 0x65).2.2.2.2.2.2.1 (by norm_num) (by norm_num)
  have hs31 := (address_constructor_validation 0 31).2.2.2.2.2.2.2.1 (by norm_num) (by norm_num)
  have h7f := (address_constructor_validation 0 0x7f).2.2.2.2.2.2.2.2 (by norm_num)
  exact ⟨h17, h31, hm1, h0, by simpa using h5, h65, hs31, h7f⟩

/-- C8: on the non-ERR path, `FindRQS` validates the driver-reported
index against the caller-supplied address list before indexing: an index
at or past the list length (or a negative `ibcnt`) yields a ValueError,
and an in-range index returns exactly the list element at that index
paired with the status byte, so the access is never out of bounds. -/
theorem findrqs_index_validation (addresses : List Addr4882) (status : IbStatus)
    (fe : Except GpibError IbError) (ibcnt : Int) (sb : Int)
    (hs : status.err = false) :
    (0 ≤ ibcnt → addresses.length ≤ ibcnt.toNat →
      FindRQS addresses status fe ibcnt sb =
        .error (.ValueError "index stored in Ibcnt is larger than addresses array length")) ∧
    (ibcnt < 0 → FindRQS addresses status fe ibcnt sb = .error (.ValueError tryFromIntErrorDesc)) ∧
    (∀ h : ibcnt.toNat < addresses.length, 0 ≤ ibcnt →
      FindRQS addresses status fe ibcnt sb = .ok (addresses.get ⟨ibcnt.toNat, h⟩, sb)) := by
  refine ⟨?_, ?_, ?_⟩
  · intro h1 h2
    rw [FindRQS.eq_def, if_neg (by simp [hs]), if_neg (by omega), if_pos (by omega)]
  · intro h1
    rw [FindRQS.eq_def, if_neg (by simp [hs]), if_pos h1]
  · intro h h0
    rw [FindRQS.eq_def, if_neg (by simp [hs]), if_neg (by omega), if_neg (by omega),
      List.getD_eq_get addresses Addr4882.no_addr h]

/-- Witness for C8: with a two-element list, reported index 5 is rejected,
index -1 fails the conversion, and index 1 returns the second address. -/
theorem findrqs_index_validation_witness :
    FindRQS [⟨3⟩, ⟨4⟩] IbStatus.default (.ok (.EDVR 0)) 5 77 =
      .error (.ValueError "index stored in Ibcnt is larger than addresses array length") ∧
    FindRQS [⟨3⟩, ⟨4⟩] IbStatus.default (.ok (.EDVR 0)) (-1) 77 =
      .error (.ValueError tryFromIntErrorDesc) ∧
    FindRQS [⟨3⟩, ⟨4⟩] IbStatus.default (.ok (.EDVR 0)) 1 77 = .ok (⟨4⟩, 77) := by
  have h := findrqs_index_validation [⟨3⟩, ⟨4⟩] IbStatus.default (.ok (.EDVR 0)) 5 77 rfl
  have h2 := findrqs_index_validation [⟨3⟩, ⟨4⟩] IbStatus.default (.ok (.EDVR 0)) (-1) 77 rfl
  have h3 := findrqs_index_validation [⟨3⟩, ⟨4⟩] IbStatus.default (.ok (.EDVR 0)) 1 77 rfl
  exact ⟨h.1 (by norm_num) (by norm_num), h2.2.1 (by norm_num),
    h3.2.2 (by norm_num) (by norm_num)⟩

/-- C4: `from_iberr` maps each code of the closed set
{0,1,2,3,4,5,6,7,8,10,11,12,14,15,16,20} to its named kind (2 to ENOL,
20 to ETAB, 0 to EDVR carrying the secondary `ibcntl` value, whose
well-known value 0xE0140025 has a non-empty human-readable hint), and
every code outside the set yields an explicit ValueError carrying the raw
value — it is total (never panics) and never maps an unknown code to an
existing kind. -/
theorem from_iberr_decodes (code ibcntl : Int) :
    (IbError.from_iberr 0 ibcntl = .ok (.EDVR ibcntl)) ∧
    (IbError.from_iberr 1 ibcntl = .ok .ECIC) ∧
    (IbError.from_iberr 2 ibcntl = .ok .ENOL) ∧
    (IbError.from_iberr 3 ibcntl = .ok .EADR) ∧
    (IbError.from_iberr 4 ibcntl = .ok .EARG) ∧
    (IbError.from_iberr 5 ibcntl = .ok .ESAC) ∧
    (IbError.from_iberr 6 ibcntl = .ok .EABO) ∧
    (IbError.from_iberr 7 ibcntl = .ok .ENEB) ∧
    (IbError.from_iberr 8 ibcntl = .ok .EDMA) ∧
    (IbError.from_iberr 10 ibcntl = .ok .EOIP) ∧
    (IbError.from_iberr 11 ibcntl = .ok .ECAP) ∧
    (IbError.from_iberr 12 ibcntl = .ok (.EFSO ibcntl)) ∧
    (IbError.from_iberr 14 ibcntl = .ok .EBUS) ∧
    (IbError.from_iberr 15 ibcntl = .ok .ESTB) ∧
    (IbError.from_iberr 16 ibcntl = .ok .ESRQ) ∧
    (IbError.from_iberr 20 ibcntl = .ok .ETAB) ∧
    (code ∉ knownIberrCodes →
      IbError.from_iberr code ibcntl =
        .error (.ValueError ("Unexpected iberr value = " ++ toString code ++ "."))) ∧
    ((∃ e, IbError.from_iberr code ibcntl = .ok e) ↔ code ∈ knownIberrCodes) ∧
    (edvr_description 0xE0140025 =
      "ibcntl = 0xE0140025: a call is made with a board number that is not within the range of allowed board numbers") ∧
    (edvr_description 0xE0140025 ≠ "") := by
  have hunk : code ∉ knownIberrCodes →
      IbError.from_iberr code ibcntl =
        .error (.ValueError ("Unexpected iberr value = " ++ toString code ++ ".")) := by
    intro hc
    simp only [knownIberrCodes, List.mem_cons, List.not_mem_nil, or_false, not_or] at hc
    obtain ⟨h0, h1, h2, h3, h4, h5, h6, h7, h8, h10, h11, h12, h14, h15, h16, h20⟩ := hc
    rw [IbError.from_iberr, if_neg h0, if_neg h1, if_neg h2, if_neg h3, if_neg h4,
      if_neg h5, if_neg h6, if_neg h7, if_neg h8, if_neg h10, if_neg h11, if_neg h12,
      if_neg h14, if_neg h15, if_neg h16, if_neg h20]
  refine ⟨by rfl, by rfl, by rfl, by rfl, by rfl, by rfl, by rfl, by rfl, by rfl, by rfl,
    by rfl, by rfl, by rfl, by rfl, by rfl, by rfl, hunk, ⟨?_, ?_⟩, by rfl, by decide⟩
  · rintro ⟨e, he⟩
    by_contra hc
    rw [hunk hc] at he
    exact Except.noConfusion he
  · intro hc
    fin_cases hc <;> exact ⟨_, rfl⟩

/-- Witness for C4: code 2 decodes to ENOL, 20 to ETAB, 0 to EDVR
carrying ibcntl = 0xE0140025, and the unknown code 99 is an explicit
ValueError naming 99. -/
theorem from_iberr_decodes_witness :
    IbError.from_iberr 2 0xE0140025 = .ok .ENOL ∧
    IbError.from_iberr 20 0 = .ok .ETAB ∧
    IbError.from_iberr 0 0xE0140025 = .ok (.EDVR 0xE0140025) ∧
    edvr_description 0xE0140025 ≠ "" ∧
    IbError.from_iberr 99 0 = .error (.ValueError "Unexpected iberr value = 99.") ∧
    (99 : Int) ∉ knownIberrCodes := by
  have h1 := (from_iberr_decodes 2 0xE0140025).2.2.1
  have h2 := (from_iberr_decodes 20 0).2.2.2.2.2.2.2.2.2.2.2.2.2.2.2.1
  have h3 := (from_iberr_decodes 0 0xE0140025).1
  have h4 := (from_iberr_decodes 0 0).2.2.2.2.2.2.2.2.2.2.2.2.2.2.2.2.2.2.2
  have hnot : (99 : Int) ∉ knownIberrCodes := by decide
  have h5 := (from_iberr_decodes 99 0).2.2.2.2.2.2.2.2.2.2.2.2.2.2.2.2.1 hnot
  exact ⟨h1, h2, h3, h4, by simpa using h5, hnot⟩

/-- One stopping iteration of the read loop: with no error and no
timeout, the loop returns after this chunk exactly when END is set, the
count is zero, or the count is below the chunk capacity. -/
theorem read_loop_stop_step (r : ReadReply) (rest : List ReadReply) (acc : List Nat) (k : Nat)
    (h1 : r.issueStatus.err = false) (h2 : r.waitStatus.err = false)
    (h3 : r.waitStatus.timo = false)
    (hstop : r.waitStatus.endFlag = true ∨ r.data.length = 0 ∨ r.data.length < BUFFER_SIZE) :
    read_loop (r :: rest) acc k =
      .ok (if r.data.length > 0 then acc ++ r.data else acc) (k + 1) := by
  have hcond : (r.waitStatus.endFlag || decide (r.data.length < BUFFER_SIZE)
      || decide (r.data.length = 0)) = true := by
    rcases hstop with h | h | h <;> simp [h]
  simp only [read_loop, h1, Bool.false_eq_true, if_false, wait_outcome, h2, h3]
  rw [if_pos hcond]

/-- One continuing iteration of the read loop: with no error, no timeout,
END clear and a full chunk, the loop appends the chunk and requests
another. -/
theorem read_loop_continue_step (r : ReadReply) (rest : List ReadReply) (acc : List Nat) (k : Nat)
    (h1 : r.issueStatus.err = false) (h2 : r.waitStatus.err = false)
    (h3 : r.waitStatus.timo = false) (hend : r.waitStatus.endFlag = false)
    (hge : BUFFER_SIZE ≤ r.data.length) (hne : r.data.length ≠ 0) :
    read_loop (r :: rest) acc k = read_loop rest (acc ++ r.data) (k + 1) := by
  have hcond : (r.waitStatus.endFlag || decide (r.data.length < BUFFER_SIZE)
      || decide (r.data.length = 0)) = false := by
    simp [hend, hne]
    omega
  have hpos : r.data.length > 0 := by omega
  have hc2 : ¬((r.waitStatus.endFlag || decide (r.data.length < BUFFER_SIZE)
      || decide (r.data.length = 0)) = true) := by
    rw [hcond]
    exact Bool.false_ne_true
  simp only [read_loop, h1, Bool.false_eq_true, if_false, wait_outcome, h2, h3]
  rw [if_neg hc2, if_pos hpos]

/-- C2: each iteration of the asynchronous chunked read issues one chunk
request and appends the reported bytes, and the loop stops after an
iteration exactly when the END flag is set, or the reported count is
zero, or the count is below the 1024-byte chunk capacity — otherwise it
loops for another chunk; for a driver returning chunks of sizes
[1024, 1024, 500] with END only on the last chunk, exactly 3 chunk
requests are issued and the result concatenates all bytes in order. -/
theorem read_chunk_loop (r : ReadReply) (rest : List ReadReply) (acc : List Nat) (k : Nat)
    (h1 : r.issueStatus.err = false) (h2 : r.waitStatus.err = false)
    (h3 : r.waitStatus.timo = false) :
    ((r.waitStatus.endFlag = true ∨ r.data.length = 0 ∨ r.data.length < BUFFER_SIZE) →
      read_loop (r :: rest) acc k =
        .ok (if r.data.length > 0 then acc ++ r.data else acc) (k + 1)) ∧
    (r.waitStatus.endFlag = false → BUFFER_SIZE ≤ r.data.length → r.data.length ≠ 0 →
      read_loop (r :: rest) acc k = read_loop rest (acc ++ r.data) (k + 1)) ∧
    (read
      [⟨IbStatus.default, IbStatus.default.with_cmpl true, List.replicate 1024 65, .ok (.EDVR 0)⟩,
       ⟨IbStatus.default, IbStatus.default.with_cmpl true, List.replicate 1024 66, .ok (.EDVR 0)⟩,
       ⟨IbStatus.default, (IbStatus.default.with_cmpl true).with_end true,
        List.replicate 500 67, .ok (.EDVR 0)⟩] =
      .ok (List.replicate 1024 65 ++ (List.replicate 1024 66 ++ List.replicate 500 67)) 3) := by
  refine ⟨read_loop_stop_step r rest acc k h1 h2 h3,
    read_loop_continue_step r rest acc k h1 h2 h3, ?_⟩
  rw [read]
  rw [read_loop_continue_step _ _ _ _ rfl rfl rfl rfl
    (by rw [List.length_replicate]; norm_num [BUFFER_SIZE])
    (by rw [List.length_replicate]; norm_num)]
  rw [read_loop_continue_step _ _ _ _ rfl rfl rfl rfl
    (by rw [List.length_replicate]; norm_num [BUFFER_SIZE])
    (by rw [List.length_replicate]; norm_num)]
  rw [read_loop_stop_step _ _ _ _ rfl rfl rfl (Or.inl rfl)]
  rw [List.length_replicate, if_pos (by norm_num : (500 : Nat) > 0)]
  simp only [List.nil_append, List.append_assoc]

/-- Witness for C2: one chunk of 300 bytes with END stops after a single
request; a full 1024-byte chunk without END continues to the next reply. -/
theorem read_chunk_loop_witness :
    read_loop [⟨IbStatus.default, (IbStatus.default.with_cmpl true).with_end true,
      List.replicate 300 9, .ok (.EDVR 0)⟩] [] 0 = .ok (List.replicate 300 9) 1 ∧
    read_loop
      [⟨IbStatus.default, IbStatus.default.with_cmpl true, List.replicate 1024 9, .ok (.EDVR 0)⟩,
       ⟨IbStatus.default, (IbStatus.default.with_cmpl true).with_end true, [7], .ok (.EDVR 0)⟩]
      [] 0 =
      read_loop [⟨IbStatus.default, (IbStatus.default.with_cmpl true).with_end true,
        [7], .ok (.EDVR 0)⟩] (List.replicate 1024 9) 1 := by
  constructor
  · have h := (read_chunk_loop ⟨IbStatus.default, (IbStatus.default.with_cmpl true).with_end true,
      List.replicate 300 9, .ok (.EDVR 0)⟩ [] [] 0 rfl rfl rfl).1 (Or.inl rfl)
    rw [h, List.length_replicate, if_pos (by norm_num : (300 : Nat) > 0), List.nil_append]
  · have h := (read_chunk_loop ⟨IbStatus.default, IbStatus.default.with_cmpl true,
      List.replicate 1024 9, .ok (.EDVR 0)⟩
      [⟨IbStatus.default, (IbStatus.default.with_cmpl true).with_end true, [7], .ok (.EDVR 0)⟩]
      [] 0 rfl rfl rfl).2.1 rfl
      (by rw [List.length_replicate]; norm_num [BUFFER_SIZE])
      (by rw [List.length_replicate]; norm_num)
    rw [h, List.nil_append]

/-- The packed-address round trip at (p, s), checked executably: packing
the validated primary p with the validated secondary s must give a token
whose low byte is p and whose high byte is the secondary's stored wire
encoding, and unpacking must return the original `PrimaryAddress` and
`SecondaryAddress` values. -/
def addrRoundtripOk (p s : Nat) : Bool :=
  match SecondaryAddress.new (s : Int) with
  | .ok sa =>
    match Addr4882.new ⟨(p : Int)⟩ sa with
    | .ok a =>
      (a.pad == p) && (a.sad == sa.sad.toNat)
        && (a.addr % 256 == p) && (a.addr / 256 == sa.sad.toNat)
        && (match a.primary_address with
            | .ok pa => pa.pad == (p : Int)
            | .error _ => false)
        && (match a.secondary_address with
            | .ok sa2 => sa2.sad == sa.sad
            | .error _ => false)
    | .error _ => false
  | .error _ => false

/-- C5: for every primary address in [0, 30] and every secondary address
that is disabled (0) or in [1, 30], packing the pair into an `Addr4882_t`
token and unpacking it yields the original pair back, with the primary in
the low byte and the (wire-encoded) secondary in the high byte. -/
theorem address_pack_unpack_roundtrip :
    ∀ p : Nat, p < 31 → ∀ s : Nat, s < 31 → addrRoundtripOk p s = true := by decide

/-- Witness for C5: the pair (5, 7) and the disabled-secondary pair
(30, 0) both round-trip. -/
theorem address_pack_unpack_roundtrip_witness :
    addrRoundtripOk 5 7 = true ∧ addrRoundtripOk 30 0 = true :=
  ⟨address_pack_unpack_roundtrip 5 (by norm_num) 7 (by norm_num),
   address_pack_unpack_roundtrip 30 (by norm_num) 0 (by norm_num)⟩

/-- C7: every multidevice list operation marshals exactly the caller's
address list with the single NOADDR end-of-list sentinel appended (the
caller's addresses form the prefix, NOADDR is last, and it occurs once
when the caller's list does not contain it); the sentinel never appears
in a returned collection: `FindLstn` truncates its result to the
driver-reported count, and `FindAllLstn` scans exactly primary addresses
1 through 30. -/
theorem sentinel_marshaling (addresses : List Addr4882) :
    FindLstn_padList addresses = (addresses.map fun a => a.addr) ++ [NOADDR] ∧
    DevClearList_instruments addresses = (addresses.map fun a => a.addr) ++ [NOADDR] ∧
    EnableLocal_instruments addresses = (addresses.map fun a => a.addr) ++ [NOADDR] ∧
    EnableRemote_instruments addresses = (addresses.map fun a => a.addr) ++ [NOADDR] ∧
    ResetSys_instruments addresses = (addresses.map fun a => a.addr) ++ [NOADDR] ∧
    SendList_instruments addresses = (addresses.map fun a => a.addr) ++ [NOADDR] ∧
    TriggerList_instruments addresses = (addresses.map fun a => a.addr) ++ [NOADDR] ∧
    (SendList_instruments addresses).take addresses.length = addresses.map (fun a => a.addr) ∧
    (SendList_instruments addresses).getLast? = some NOADDR ∧
    (NOADDR ∉ addresses.map (fun a => a.addr) →
      (SendList_instruments addresses).count NOADDR = 1) ∧
    (∀ (status : IbStatus) (fe : Except GpibError IbError) (written : List Nat) (n : Int),
      status.err = false → 0 ≤ n →
      FindLstn status fe written n = .ok ((written.take n.toNat).map Addr4882.mk) ∧
      ((∀ a ∈ written.take n.toNat, a ≠ NOADDR) →
        Addr4882.no_addr ∉ (written.take n.toNat).map Addr4882.mk)) ∧
    FindAllLstn_padList = .ok ((List.range' 1 30).map fun p => ⟨p⟩) ∧
    ((List.range' 1 30).map fun p => (⟨p⟩ : Addr4882)).map Addr4882.pad = List.range' 1 30 := by
  refine ⟨rfl, rfl, rfl, rfl, rfl, rfl, rfl, ?_, ?_, ?_, ?_, by rfl, by decide⟩
  · exact List.take_left' (by rw [List.length_map])
  · exact List.getLast?_concat _
  · intro hnot
    rw [SendList_instruments, List.count_append]
    rw [List.count_eq_zero.mpr hnot]
    rfl
  · intro status fe written n hs hn
    constructor
    · rw [FindLstn.eq_def, if_neg (by simp [hs]), if_neg (by omega)]
    · intro hsent hmem
      rw [List.mem_map] at hmem
      obtain ⟨a, ha, hmk⟩ := hmem
      have : a = NOADDR := by
        have := congrArg Addr4882.addr hmk
        simpa [Addr4882.no_addr] using this
      exact hsent a ha (by omega)

/-- Witness for C7: the one-address list [3] marshals to [3, NOADDR]
with the sentinel counted once; a FindLstn reply reporting 2 addresses
out of the 31-slot buffer returns exactly those 2, without the sentinel;
and the FindAllLstn scan list is the packed primaries 1..30. -/
theorem sentinel_marshaling_witness :
    SendList_instruments [⟨3⟩] = [3, NOADDR] ∧
    (SendList_instruments [⟨3⟩]).count NOADDR = 1 ∧
    FindLstn IbStatus.default (.ok (.EDVR 0))
      (7 :: 9 :: List.replicate 29 NOADDR) 2 = .ok [⟨7⟩, ⟨9⟩] ∧
    Addr4882.no_addr ∉ [(⟨7⟩ : Addr4882), ⟨9⟩] ∧
    FindAllLstn_padList = .ok ((List.range' 1 30).map fun p => ⟨p⟩) := by
  have h := sentinel_marshaling [⟨3⟩]
  have hf := h.2.2.2.2.2.2.2.2.2.2.1 IbStatus.default (.ok (.EDVR 0))
    (7 :: 9 :: List.replicate 29 NOADDR) 2 rfl (by norm_num)
  refine ⟨h.2.2.2.2.2.1.trans (by rfl), ?_, ?_, ?_, h.2.2.2.2.2.2.2.2.2.2.2.1⟩
  · rw [h.2.2.2.2.2.2.2.2.2.1 (by decide)]
  · rw [hf.1]
    rfl
  · have := hf.2 (by decide)
    simpa using this

/-- The Rust flag test `((1 << k) & x) != 0` is `Nat.testBit`. -/
theorem shift_and_ne (k x : Nat) : ((1 <<< k) &&& x != 0) = x.testBit k := by
  rw [Nat.one_shiftLeft]
  cases h : x.testBit k
  · simp [Nat.two_pow_and, h]
  · simp [Nat.two_pow_and, h]

/-- Bit `j` of one conditional or-in step. -/
theorem orBitIf_testBit (c : Bool) (k v j : Nat) :
    (orBitIf c k v).testBit j = (v.testBit j || (c && decide (j = k))) := by
  unfold orBitIf
  cases c
  · simp
  · simp only [if_true, Nat.testBit_or, Nat.one_shiftLeft, Nat.testBit_two_pow, Bool.true_and]
    congr 1
    exact decide_eq_decide.mpr ⟨Eq.symm, Eq.symm⟩

/-- `from_ibsta` reads exactly the 16 low bits of the status word. -/
theorem from_ibsta_fields (x : Nat) :
    IbStatus.from_ibsta x =
      ⟨x.testBit 0, x.testBit 1, x.testBit 2, x.testBit 3, x.testBit 4, x.testBit 5,
       x.testBit 6, x.testBit 7, x.testBit 8, x.testBit 9, x.testBit 10, x.testBit 11,
       x.testBit 12, x.testBit 13, x.testBit 14, x.testBit 15⟩ := by
  simp only [IbStatus.from_ibsta, shift_and_ne, ibsta_bit_numbers_DCAS_NUM,
    ibsta_bit_numbers_DTAS_NUM, ibsta_bit_numbers_LACS_NUM, ibsta_bit_numbers_TACS_NUM,
    ibsta_bit_numbers_ATN_NUM, ibsta_bit_numbers_CIC_NUM, ibsta_bit_numbers_REM_NUM,
    ibsta_bit_numbers_LOK_NUM, ibsta_bit_numbers_CMPL_NUM, ibsta_bit_numbers_EVENT_NUM,
    ibsta_bit_numbers_SPOLL_NUM, ibsta_bit_numbers_RQS_NUM, ibsta_bit_numbers_SRQI_NUM,
    ibsta_bit_numbers_END_NUM, ibsta_bit_numbers_TIMO_NUM, ibsta_bit_numbers_ERR_NUM]

/-- Bit 0 of the encoded status word is the `dcas` flag. -/
theorem as_ibsta_testBit_0 (s : IbStatus) : s.as_ibsta.testBit 0 = s.dcas := by
  simp only [IbStatus.as_ibsta, orBitIf_testBit, Nat.zero_testBit]
  norm_num [ibsta_bit_numbers_DCAS_NUM,
    ibsta_bit_numbers_DTAS_NUM, ibsta_bit_numbers_LACS_NUM, ibsta_bit_numbers_TACS_NUM,
    ibsta_bit_numbers_ATN_NUM, ibsta_bit_numbers_CIC_NUM, ibsta_bit_numbers_REM_NUM,
    ibsta_bit_numbers_LOK_NUM, ibsta_bit_numbers_CMPL_NUM, ibsta_bit_numbers_EVENT_NUM,
    ibsta_bit_numbers_SPOLL_NUM, ibsta_bit_numbers_RQS_NUM, ibsta_bit_numbers_SRQI_NUM,
    ibsta_bit_numbers_END_NUM, ibsta_bit_numbers_TIMO_NUM, ibsta_bit_numbers_ERR_NUM]

/-- Bit 1 of the encoded status word is the `dtas` flag. -/
theorem as_ibsta_testBit_1 (s : IbStatus) : s.as_ibsta.testBit 1 = s.dtas := by
  simp only [IbStatus.as_ibsta, orBitIf_testBit, Nat.zero_testBit]
  norm_num [ibsta_bit_numbers_DCAS_NUM,
    ibsta_bit_numbers_DTAS_NUM, ibsta_bit_numbers_LACS_NUM, ibsta_bit_numbers_TACS_NUM,
    ibsta_bit_numbers_ATN_NUM, ibsta_bit_numbers_CIC_NUM, ibsta_bit_numbers_REM_NUM,
    ibsta_bit_numbers_LOK_NUM, ibsta_bit_numbers_CMPL_NUM, ibsta_bit_numbers_EVENT_NUM,
    ibsta_bit_numbers_SPOLL_NUM, ibsta_bit_numbers_RQS_NUM, ibsta_bit_numbers_SRQI_NUM,
    ibsta_bit_numbers_END_NUM, ibsta_bit_numbers_TIMO_NUM, ibsta_bit_numbers_ERR_NUM]

/-- Bit 2 of the encoded status word is the `lacs` flag. -/
theorem as_ibsta_testBit_2 (s : IbStatus) : s.as_ibsta.testBit 2 = s.lacs := by
  simp only [IbStatus.as_ibsta, orBitIf_testBit, Nat.zero_testBit]
  norm_num [ibsta_bit_numbers_DCAS_NUM,
    ibsta_bit_numbers_DTAS_NUM, ibsta_bit_numbers_LACS_NUM, ibsta_bit_numbers_TACS_NUM,
    ibsta_bit_numbers_ATN_NUM, ibsta_bit_numbers_CIC_NUM, ibsta_bit_numbers_REM_NUM,
    ibsta_bit_numbers_LOK_NUM, ibsta_bit_numbers_CMPL_NUM, ibsta_bit_numbers_EVENT_NUM,
    ibsta_bit_numbers_SPOLL_NUM, ibsta_bit_numbers_RQS_NUM, ibsta_bit_numbers_SRQI_NUM,
    ibsta_bit_numbers_END_NUM, ibsta_bit_numbers_TIMO_NUM, ibsta_bit_numbers_ERR_NUM]

/-- Bit 3 of the encoded status word is the `tacs` flag. -/
theorem as_ibsta_testBit_3 (s : IbStatus) : s.as_ibsta.testBit 3 = s.tacs := by
  simp only [IbStatus.as_ibsta, orBitIf_testBit, Nat.zero_testBit]
  norm_num [ibsta_bit_numbers_DCAS_NUM,
    ibsta_bit_numbers_DTAS_NUM, ibsta_bit_numbers_LACS_NUM, ibsta_bit_numbers_TACS_NUM,
    ibsta_bit_numbers_ATN_NUM, ibsta_bit_numbers_CIC_NUM, ibsta_bit_numbers_REM_NUM,
    ibsta_bit_numbers_LOK_NUM, ibsta_bit_numbers_CMPL_NUM, ibsta_bit_numbers_EVENT_NUM,
    ibsta_bit_numbers_SPOLL_NUM, ibsta_bit_numbers_RQS_NUM, ibsta_bit_numbers_SRQI_NUM,
    ibsta_bit_numbers_END_NUM, ibsta_bit_numbers_TIMO_NUM, ibsta_bit_numbers_ERR_NUM]

/-- Bit 4 of the encoded status word is the `atn` flag. -/
theorem as_ibsta_testBit_4 (s : IbStatus) : s.as_ibsta.testBit 4 = s.atn := by
  simp only [IbStatus.as_ibsta, orBitIf_testBit, Nat.zero_testBit]
  norm_num [ibsta_bit_numbers_DCAS_NUM,
    ibsta_bit_numbers_DTAS_NUM, ibsta_bit_numbers_LACS_NUM, ibsta_bit_numbers_TACS_NUM,
    ibsta_bit_numbers_ATN_NUM, ibsta_bit_numbers_CIC_NUM, ibsta_bit_numbers_REM_NUM,
    ibsta_bit_numbers_LOK_NUM, ibsta_bit_numbers_CMPL_NUM, ibsta_bit_numbers_EVENT_NUM,
    ibsta_bit_numbers_SPOLL_NUM, ibsta_bit_numbers_RQS_NUM, ibsta_bit_numbers_SRQI_NUM,
    ibsta_bit_numbers_END_NUM, ibsta_bit_numbers_TIMO_NUM, ibsta_bit_numbers_ERR_NUM]

/-- Bit 5 of the encoded status word is the `cic` flag. -/
theorem as_ibsta_testBit_5 (s : IbStatus) : s.as_ibsta.testBit 5 = s.cic := by
  simp only [IbStatus.as_ibsta, orBitIf_testBit, Nat.zero_testBit]
  norm_num [ibsta_bit_numbers_DCAS_NUM,
    ibsta_bit_numbers_DTAS_NUM, ibsta_bit_numbers_LACS_NUM, ibsta_bit_numbers_TACS_NUM,
    ibsta_bit_numbers_ATN_NUM, ibsta_bit_numbers_CIC_NUM, ibsta_bit_numbers_REM_NUM,
    ibsta_bit_numbers_LOK_NUM, ibsta_bit_numbers_CMPL_NUM, ibsta_bit_numbers_EVENT_NUM,
    ibsta_bit_numbers_SPOLL_NUM, ibsta_bit_numbers_RQS_NUM, ibsta_bit_numbers_SRQI_NUM,
    ibsta_bit_numbers_END_NUM, ibsta_bit_numbers_TIMO_NUM, ibsta_bit_numbers_ERR_NUM]

/-- Bit 6 of the encoded status word is the `rem` flag. -/
theorem as_ibsta_testBit_6 (s : IbStatus) : s.as_ibsta.testBit 6 = s.rem := by
  simp only [IbStatus.as_ibsta, orBitIf_testBit, Nat.zero_testBit]
  norm_num [ibsta_bit_numbers_DCAS_NUM,
    ibsta_bit_numbers_DTAS_NUM, ibsta_bit_numbers_LACS_NUM, ibsta_bit_numbers_TACS_NUM,
    ibsta_bit_numbers_ATN_NUM, ibsta_bit_numbers_CIC_NUM, ibsta_bit_numbers_REM_NUM,
    ibsta_bit_numbers_LOK_NUM, ibsta_bit_numbers_CMPL_NUM, ibsta_bit_numbers_EVENT_NUM,
    ibsta_bit_numbers_SPOLL_NUM, ibsta_bit_numbers_RQS_NUM, ibsta_bit_numbers_SRQI_NUM,
    ibsta_bit_numbers_END_NUM, ibsta_bit_numbers_TIMO_NUM, ibsta_bit_numbers_ERR_NUM]

/-- Bit 7 of the encoded status word is the `lok` flag. -/
theorem as_ibsta_testBit_7 (s : IbStatus) : s.as_ibsta.testBit 7 = s.lok := by
  simp only [IbStatus.as_ibsta, orBitIf_testBit, Nat.zero_testBit]
  norm_num [ibsta_bit_numbers_DCAS_NUM,
    ibsta_bit_numbers_DTAS_NUM, ibsta_bit_numbers_LACS_NUM, ibsta_bit_numbers_TACS_NUM,
    ibsta_bit_numbers_ATN_NUM, ibsta_bit_numbers_CIC_NUM, ibsta_bit_numbers_REM_NUM,
    ibsta_bit_numbers_LOK_NUM, ibsta_bit_numbers_CMPL_NUM, ibsta_bit_numbers_EVENT_NUM,
    ibsta_bit_numbers_SPOLL_NUM, ibsta_bit_numbers_RQS_NUM, ibsta_bit_numbers_SRQI_NUM,
    ibsta_bit_numbers_END_NUM, ibsta_bit_numbers_TIMO_NUM, ibsta_bit_numbers_ERR_NUM]

/-- Bit 8 of the encoded status word is the `cmpl` flag. -/
theorem as_ibsta_testBit_8 (s : IbStatus) : s.as_ibsta.testBit 8 = s.cmpl := by
  simp only [IbStatus.as_ibsta, orBitIf_testBit, Nat.zero_testBit]
  norm_num [ibsta_bit_numbers_DCAS_NUM,
    ibsta_bit_numbers_DTAS_NUM, ibsta_bit_numbers_LACS_NUM, ibsta_bit_numbers_TACS_NUM,
    ibsta_bit_numbers_ATN_NUM, ibsta_bit_numbers_CIC_NUM, ibsta_bit_numbers_REM_NUM,
    ibsta_bit_numbers_LOK_NUM, ibsta_bit_numbers_CMPL_NUM, ibsta_bit_numbers_EVENT_NUM,
    ibsta_bit_numbers_SPOLL_NUM, ibsta_bit_numbers_RQS_NUM, ibsta_bit_numbers_SRQI_NUM,
    ibsta_bit_numbers_END_NUM, ibsta_bit_numbers_TIMO_NUM, ibsta_bit_numbers_ERR_NUM]

/-- Bit 9 of the encoded status word is the `event` flag. -/
theorem as_ibsta_testBit_9 (s : IbStatus) : s.as_ibsta.testBit 9 = s.event := by
  simp only [IbStatus.as_ibsta, orBitIf_testBit, Nat.zero_testBit]
  norm_num [ibsta_bit_numbers_DCAS_NUM,
    ibsta_bit_numbers_DTAS_NUM, ibsta_bit_numbers_LACS_NUM, ibsta_bit_numbers_TACS_NUM,
    ibsta_bit_numbers_ATN_NUM, ibsta_bit_numbers_CIC_NUM, ibsta_bit_numbers_REM_NUM,
    ibsta_bit_numbers_LOK_NUM, ibsta_bit_numbers_CMPL_NUM, ibsta_bit_numbers_EVENT_NUM,
    ibsta_bit_numbers_SPOLL_NUM, ibsta_bit_numbers_RQS_NUM, ibsta_bit_numbers_SRQI_NUM,
    ibsta_bit_numbers_END_NUM, ibsta_bit_numbers_TIMO_NUM, ibsta_bit_numbers_ERR_NUM]

/-- Bit 10 of the encoded status word is the `spoll` flag. -/
theorem as_ibsta_testBit_10 (s : IbStatus) : s.as_ibsta.testBit 10 = s.spoll := by
  simp only [IbStatus.as_ibsta, orBitIf_testBit, Nat.zero_testBit]
  norm_num [ibsta_bit_numbers_DCAS_NUM,
    ibsta_bit_numbers_DTAS_NUM, ibsta_bit_numbers_LACS_NUM, ibsta_bit_numbers_TACS_NUM,
    ibsta_bit_numbers_ATN_NUM, ibsta_bit_numbers_CIC_NUM, ibsta_bit_numbers_REM_NUM,
    ibsta_bit_numbers_LOK_NUM, ibsta_bit_numbers_CMPL_NUM, ibsta_bit_numbers_EVENT_NUM,
    ibsta_bit_numbers_SPOLL_NUM, ibsta_bit_numbers_RQS_NUM, ibsta_bit_numbers_SRQI_NUM,
    ibsta_bit_numbers_END_NUM, ibsta_bit_numbers_TIMO_NUM, ibsta_bit_numbers_ERR_NUM]

/-- Bit 11 of the encoded status word is the `rqs` flag. -/
theorem as_ibsta_testBit_11 (s : IbStatus) : s.as_ibsta.testBit 11 = s.rqs := by
  simp only [IbStatus.as_ibsta, orBitIf_testBit, Nat.zero_testBit]
  norm_num [ibsta_bit_numbers_DCAS_NUM,
    ibsta_bit_numbers_DTAS_NUM, ibsta_bit_numbers_LACS_NUM, ibsta_bit_numbers_TACS_NUM,
    ibsta_bit_numbers_ATN_NUM, ibsta_bit_numbers_CIC_NUM, ibsta_bit_numbers_REM_NUM,
    ibsta_bit_numbers_LOK_NUM, ibsta_bit_numbers_CMPL_NUM, ibsta_bit_numbers_EVENT_NUM,
    ibsta_bit_numbers_SPOLL_NUM, ibsta_bit_numbers_RQS_NUM, ibsta_bit_numbers_SRQI_NUM,
    ibsta_bit_numbers_END_NUM, ibsta_bit_numbers_TIMO_NUM, ibsta_bit_numbers_ERR_NUM]

/-- Bit 12 of the encoded status word is the `srqi` flag. -/
theorem as_ibsta_testBit_12 (s : IbStatus) : s.as_ibsta.testBit 12 = s.srqi := by
  simp only [IbStatus.as_ibsta, orBitIf_testBit, Nat.zero_testBit]
  norm_num [ibsta_bit_numbers_DCAS_NUM,
    ibsta_bit_numbers_DTAS_NUM, ibsta_bit_numbers_LACS_NUM, ibsta_bit_numbers_TACS_NUM,
    ibsta_bit_numbers_ATN_NUM, ibsta_bit_numbers_CIC_NUM, ibsta_bit_numbers_REM_NUM,
    ibsta_bit_numbers_LOK_NUM, ibsta_bit_numbers_CMPL_NUM, ibsta_bit_numbers_EVENT_NUM,
    ibsta_bit_numbers_SPOLL_NUM, ibsta_bit_numbers_RQS_NUM, ibsta_bit_numbers_SRQI_NUM,
    ibsta_bit_numbers_END_NUM, ibsta_bit_numbers_TIMO_NUM, ibsta_bit_numbers_ERR_NUM]

/-- Bit 13 of the encoded status word is the `endFlag` flag. -/
theorem as_ibsta_testBit_13 (s : IbStatus) : s.as_ibsta.testBit 13 = s.endFlag := by
  simp only [IbStatus.as_ibsta, orBitIf_testBit, Nat.zero_testBit]
  norm_num [ibsta_bit_numbers_DCAS_NUM,
    ibsta_bit_numbers_DTAS_NUM, ibsta_bit_numbers_LACS_NUM, ibsta_bit_numbers_TACS_NUM,
    ibsta_bit_numbers_ATN_NUM, ibsta_bit_numbers_CIC_NUM, ibsta_bit_numbers_REM_NUM,
    ibsta_bit_numbers_LOK_NUM, ibsta_bit_numbers_CMPL_NUM, ibsta_bit_numbers_EVENT_NUM,
    ibsta_bit_numbers_SPOLL_NUM, ibsta_bit_numbers_RQS_NUM, ibsta_bit_numbers_SRQI_NUM,
    ibsta_bit_numbers_END_NUM, ibsta_bit_numbers_TIMO_NUM, ibsta_bit_numbers_ERR_NUM]

/-- Bit 14 of the encoded status word is the `timo` flag. -/
theorem as_ibsta_testBit_14 (s : IbStatus) : s.as_ibsta.testBit 14 = s.timo := by
  simp only [IbStatus.as_ibsta, orBitIf_testBit, Nat.zero_testBit]
  norm_num [ibsta_bit_numbers_DCAS_NUM,
    ibsta_bit_numbers_DTAS_NUM, ibsta_bit_numbers_LACS_NUM, ibsta_bit_numbers_TACS_NUM,
    ibsta_bit_numbers_ATN_NUM, ibsta_bit_numbers_CIC_NUM, ibsta_bit_numbers_REM_NUM,
    ibsta_bit_numbers_LOK_NUM, ibsta_bit_numbers_CMPL_NUM, ibsta_bit_numbers_EVENT_NUM,
    ibsta_bit_numbers_SPOLL_NUM, ibsta_bit_numbers_RQS_NUM, ibsta_bit_numbers_SRQI_NUM,
    ibsta_bit_numbers_END_NUM, ibsta_bit_numbers_TIMO_NUM, ibsta_bit_numbers_ERR_NUM]

/-- Bit 15 of the encoded status word is the `err` flag. -/
theorem as_ibsta_testBit_15 (s : IbStatus) : s.as_ibsta.testBit 15 = s.err := by
  simp only [IbStatus.as_ibsta, orBitIf_testBit, Nat.zero_testBit]
  norm_num [ibsta_bit_numbers_DCAS_NUM,
    ibsta_bit_numbers_DTAS_NUM, ibsta_bit_numbers_LACS_NUM, ibsta_bit_numbers_TACS_NUM,
    ibsta_bit_numbers_ATN_NUM, ibsta_bit_numbers_CIC_NUM, ibsta_bit_numbers_REM_NUM,
    ibsta_bit_numbers_LOK_NUM, ibsta_bit_numbers_CMPL_NUM, ibsta_bit_numbers_EVENT_NUM,
    ibsta_bit_numbers_SPOLL_NUM, ibsta_bit_numbers_RQS_NUM, ibsta_bit_numbers_SRQI_NUM,
    ibsta_bit_numbers_END_NUM, ibsta_bit_numbers_TIMO_NUM, ibsta_bit_numbers_ERR_NUM]

/-- The encoded status word has no bits at positions 16 and above. -/
theorem as_ibsta_testBit_ge16 (s : IbStatus) (j : Nat) (hj : 16 ≤ j) :
    s.as_ibsta.testBit j = false := by
  simp only [IbStatus.as_ibsta, orBitIf_testBit, Nat.zero_testBit]
  simp [ibsta_bit_numbers_DCAS_NUM,
    ibsta_bit_numbers_DTAS_NUM, ibsta_bit_numbers_LACS_NUM, ibsta_bit_numbers_TACS_NUM,
    ibsta_bit_numbers_ATN_NUM, ibsta_bit_numbers_CIC_NUM, ibsta_bit_numbers_REM_NUM,
    ibsta_bit_numbers_LOK_NUM, ibsta_bit_numbers_CMPL_NUM, ibsta_bit_numbers_EVENT_NUM,
    ibsta_bit_numbers_SPOLL_NUM, ibsta_bit_numbers_RQS_NUM, ibsta_bit_numbers_SRQI_NUM,
    ibsta_bit_numbers_END_NUM, ibsta_bit_numbers_TIMO_NUM, ibsta_bit_numbers_ERR_NUM,
    decide_eq_false (show ¬(j = 0) by omega),
    decide_eq_false (show ¬(j = 1) by omega),
    decide_eq_false (show ¬(j = 2) by omega),
    decide_eq_false (show ¬(j = 3) by omega),
    decide_eq_false (show ¬(j = 4) by omega),
    decide_eq_false (show ¬(j = 5) by omega),
    decide_eq_false (show ¬(j = 6) by omega),
    decide_eq_false (show ¬(j = 7) by omega),
    decide_eq_false (show ¬(j = 8) by omega),
    decide_eq_false (show ¬(j = 9) by omega),
    decide_eq_false (show ¬(j = 10) by omega),
    decide_eq_false (show ¬(j = 11) by omega),
    decide_eq_false (show ¬(j = 12) by omega),
    decide_eq_false (show ¬(j = 13) by omega),
    decide_eq_false (show ¬(j = 14) by omega),
    decide_eq_false (show ¬(j = 15) by omega)]

/-- C3: the status-word codec is a pair of total inverse functions over
the 16 flag bits: encoding the decoded word gives back every 16-bit
status integer, and decoding the encoded word gives back every
`IbStatus` value, each flag at its fixed bit position. -/
theorem status_word_roundtrip :
    (∀ x : Nat, x < 65536 → IbStatus.as_ibsta (IbStatus.from_ibsta x) = x) ∧
    (∀ s : IbStatus, IbStatus.from_ibsta s.as_ibsta = s) := by
  constructor
  · intro x hx
    apply Nat.eq_of_testBit_eq
    intro j
    by_cases hj : j < 16
    · interval_cases j <;>
        simp only [as_ibsta_testBit_0, as_ibsta_testBit_1, as_ibsta_testBit_2,
          as_ibsta_testBit_3, as_ibsta_testBit_4, as_ibsta_testBit_5, as_ibsta_testBit_6,
          as_ibsta_testBit_7, as_ibsta_testBit_8, as_ibsta_testBit_9, as_ibsta_testBit_10,
          as_ibsta_testBit_11, as_ibsta_testBit_12, as_ibsta_testBit_13, as_ibsta_testBit_14,
          as_ibsta_testBit_15, from_ibsta_fields]
    · rw [as_ibsta_testBit_ge16 _ j (by omega)]
      symm
      apply Nat.testBit_eq_false_of_lt
      calc x < 65536 := hx
        _ = 2 ^ 16 := by norm_num
        _ ≤ 2 ^ j := Nat.pow_le_pow_right (by norm_num) (by omega)
  · intro s
    rw [from_ibsta_fields, as_ibsta_testBit_0, as_ibsta_testBit_1, as_ibsta_testBit_2,
      as_ibsta_testBit_3, as_ibsta_testBit_4, as_ibsta_testBit_5, as_ibsta_testBit_6,
      as_ibsta_testBit_7, as_ibsta_testBit_8, as_ibsta_testBit_9, as_ibsta_testBit_10,
      as_ibsta_testBit_11, as_ibsta_testBit_12, as_ibsta_testBit_13, as_ibsta_testBit_14,
      as_ibsta_testBit_15]

/-- Witness for C3: the 16-bit word 0xABCD survives decode-encode, and
the write wait mask survives encode-decode. -/
theorem status_word_roundtrip_witness :
    IbStatus.as_ibsta (IbStatus.from_ibsta 0xABCD) = 0xABCD ∧
    IbStatus.from_ibsta write_wait_mask.as_ibsta = write_wait_mask :=
  ⟨status_word_roundtrip.1 0xABCD (by norm_num), status_word_roundtrip.2 write_wait_mask⟩

theorem decDigitChar_toNat (d : Nat) (h : d < 10) : (decDigitChar d).toNat = 48 + d := by
  interval_cases d <;> decide

theorem isDecDigit_decDigitChar (d : Nat) (h : d < 10) : isDecDigit (decDigitChar d) = true := by
  interval_cases d <;> decide

/-- The digit loop over a rendered digit string accumulates positionally. -/
theorem parseDigitsAcc_eq (ds : List Nat) (acc : Nat) (h : ∀ d ∈ ds, d < 10) :
    parseDigitsAcc (ds.map decDigitChar) acc =
      some (ds.foldl (fun a d => a * 10 + d) acc) := by
  induction ds generalizing acc with
  | nil => rfl
  | cons d tl ih =>
    have hd : d < 10 := h d (List.mem_cons_self d tl)
    simp only [List.map_cons, parseDigitsAcc, isDecDigit_decDigitChar d hd, if_true,
      decDigitChar_toNat d hd, List.foldl_cons]
    rw [show 48 + d - 48 = d by omega]
    exact ih _ fun x hx => h x (List.mem_cons_of_mem d hx)

/-- Folding most-significant-first digits is `Nat.ofDigits` of the
little-endian list. -/
theorem foldl_reverse_ofDigits (l : List Nat) (acc : Nat) :
    (l.reverse.foldl (fun a d => a * 10 + d) acc) = acc * 10 ^ l.length + Nat.ofDigits 10 l := by
  induction l generalizing acc with
  | nil => simp
  | cons d tl ih =>
    simp only [List.reverse_cons, List.foldl_append, List.foldl_cons, List.foldl_nil,
      Nat.ofDigits_cons, List.length_cons, ih]
    ring

/-- Parsing the decimal rendering of `n` gives back `n`. -/
theorem parseDigits_natDecimal (n : Nat) : parseDigits (natDecimal n) = some n := by
  by_cases h : n = 0
  · subst h
    decide
  · have hne : Nat.digits 10 n ≠ [] := Nat.digits_ne_nil_iff_ne_zero.mpr h
    have hlt : ∀ d ∈ Nat.digits 10 n, d < 10 := fun d hd => Nat.digits_lt_base (by norm_num) hd
    rw [natDecimal, if_neg h, ← List.map_reverse]
    obtain ⟨c, cs, hcons⟩ : ∃ c cs, (Nat.digits 10 n).reverse = c :: cs := by
      rcases hrev : (Nat.digits 10 n).reverse with _ | ⟨c, cs⟩
      · exact absurd (List.reverse_eq_nil_iff.mp hrev) hne
      · exact ⟨c, cs, rfl⟩
    rw [hcons, List.map_cons]
    show parseDigitsAcc (decDigitChar c :: List.map decDigitChar cs) 0 = some n
    rw [← List.map_cons, ← hcons]
    have hlt' : ∀ d ∈ (Nat.digits 10 n).reverse, d < 10 := fun d hd =>
      hlt d (List.mem_reverse.mp hd)
    rw [parseDigitsAcc_eq _ 0 hlt']
    rw [foldl_reverse_ofDigits (Nat.digits 10 n) 0]
    simp [Nat.ofDigits_digits]

theorem natDecimal_all_digits (n : Nat) : ∀ c ∈ natDecimal n, isDecDigit c = true := by
  intro c hc
  rw [natDecimal] at hc
  split at hc
  · simp at hc
    subst hc
    decide
  · rw [List.mem_reverse, List.mem_map] at hc
    obtain ⟨d, hd, rfl⟩ := hc
    exact isDecDigit_decDigitChar d (Nat.digits_lt_base (by norm_num) hd)

theorem natDecimal_ne_nil (n : Nat) : natDecimal n ≠ [] := by
  rw [natDecimal]
  split
  · simp
  · simp only [ne_eq, List.reverse_eq_nil_iff, List.map_eq_nil_iff]
    exact Nat.digits_ne_nil_iff_ne_zero.mpr (by assumption)

theorem no_plus_minus_of_digit (c : Char) (h : isDecDigit c = true) : c ≠ '+' ∧ c ≠ '-' := by
  constructor <;> rintro rfl <;> simp [isDecDigit] at h

/-- `from_str_radix` inverts the decimal rendering of an in-range `Nat`. -/
theorem from_str_radix_natDecimal (n : Nat) (h : n ≤ 2147483647) :
    from_str_radix_i32 (natDecimal n) = some (n : Int) := by
  obtain ⟨c, cs, hcons⟩ : ∃ c cs, natDecimal n = c :: cs := by
    rcases he : natDecimal n with _ | ⟨c, cs⟩
    · exact absurd he (natDecimal_ne_nil n)
    · exact ⟨c, cs, rfl⟩
  have hdig : isDecDigit c = true := natDecimal_all_digits n c (hcons ▸ List.mem_cons_self c cs)
  obtain ⟨hplus, hminus⟩ := no_plus_minus_of_digit c hdig
  rw [hcons, from_str_radix_i32, if_neg hplus, if_neg hminus, ← hcons,
    parseDigits_natDecimal]
  show (if n ≤ 2147483647 then some ((n : Nat) : Int) else none) = some (n : Int)
  rw [if_pos h]

/-- `from_str_radix` inverts the decimal rendering of an in-range `i32`. -/
theorem from_str_radix_intDecimal (i : Int) (h1 : -2147483648 ≤ i) (h2 : i ≤ 2147483647) :
    from_str_radix_i32 (intDecimal i) = some i := by
  by_cases hneg : i < 0
  · rw [intDecimal, if_pos hneg, from_str_radix_i32, if_neg (by decide), if_pos rfl,
      parseDigits_natDecimal]
    show (if i.natAbs ≤ 2147483648 then some (-(i.natAbs : Int)) else none) = some i
    rw [if_pos (by omega)]
    congr 1
    omega
  · rw [intDecimal, if_neg hneg]
    rw [from_str_radix_natDecimal i.toNat (by omega)]
    congr 1
    omega

/-- Splitting at the first `"::"`: a leading colon-free segment comes off
whole. -/
theorem splitColons_noColon_append (a rest : List Char) (h : ∀ c ∈ a, c ≠ ':') :
    splitColons (a ++ ':' :: ':' :: rest) = a :: splitColons rest := by
  induction a with
  | nil =>
    show splitColons (':' :: ':' :: rest) = [] :: splitColons rest
    rw [splitColons]
    rw [if_pos ⟨rfl, rfl⟩]
  | cons c a' ih =>
    have hc : c ≠ ':' := h c (List.mem_cons_self _ _)
    cases a' with
    | nil =>
      show splitColons (c :: ':' :: ':' :: rest) = [c] :: splitColons rest
      rw [splitColons, if_neg (fun hp => hc hp.1)]
      have hbase : splitColons (':' :: ':' :: rest) = [] :: splitColons rest := by
        rw [splitColons, if_pos ⟨rfl, rfl⟩]
      rw [hbase]
    | cons d a'' =>
      have ih' := ih fun x hx => h x (List.mem_cons_of_mem c hx)
      show splitColons (c :: (d :: a'' ++ ':' :: ':' :: rest)) =
        (c :: d :: a'') :: splitColons rest
      rw [List.cons_append] at ih' ⊢
      rw [splitColons, if_neg (fun hp => hc hp.1)]
      rw [ih']

theorem natDecimal_no_colon (n : Nat) : ∀ c ∈ natDecimal n, c ≠ ':' := by
  intro c hc
  have h := natDecimal_all_digits n c hc
  rintro rfl
  simp [isDecDigit] at h

theorem intDecimal_no_colon (i : Int) : ∀ c ∈ intDecimal i, c ≠ ':' := by
  intro c hc
  rw [intDecimal] at hc
  split at hc
  · rcases List.mem_cons.mp hc with rfl | hc2
    · decide
    · exact natDecimal_no_colon _ c hc2
  · exact natDecimal_no_colon _ c hc

/-- Packing a small primary with no secondary address is the identity on
the token value. -/
theorem makeAddr_small : ∀ p : Nat, p < 31 → MakeAddr p 0 = p ∧ GetPAD p = p := by decide

/-- C9: VISA string parsing and serialization round-trip: serializing an
instrument built from any parsed (board, primary) pair — board any `i32`,
primary validated into [0, 30] — produces a string that reparses to the
identical instrument; parsing "GPIB0::1::INSTR" yields board 0 and
primary 1, and re-serializing that instrument yields the identical
string. -/
theorem visa_string_roundtrip :
    (∀ (b : Int) (p : Nat), -2147483648 ≤ b → b ≤ 2147483647 → p ≤ 30 →
      Instrument.from_visa_string (Instrument.visa_string ⟨⟨b⟩, ⟨MakeAddr p 0⟩⟩) =
        .ok ⟨⟨b⟩, ⟨MakeAddr p 0⟩⟩) ∧
    (Instrument.from_visa_string
        ['G', 'P', 'I', 'B', '0', ':', ':', '1', ':', ':', 'I', 'N', 'S', 'T', 'R'] =
      .ok ⟨⟨0⟩, ⟨1⟩⟩) ∧
    (Instrument.visa_string ⟨⟨0⟩, ⟨1⟩⟩ =
      ['G', 'P', 'I', 'B', '0', ':', ':', '1', ':', ':', 'I', 'N', 'S', 'T', 'R']) := by
  have main : ∀ (b : Int) (p : Nat), -2147483648 ≤ b → b ≤ 2147483647 → p ≤ 30 →
      Instrument.from_visa_string (Instrument.visa_string ⟨⟨b⟩, ⟨MakeAddr p 0⟩⟩) =
        .ok ⟨⟨b⟩, ⟨MakeAddr p 0⟩⟩ := by
    intro b p h1 h2 hp
    obtain ⟨hmk, hgp⟩ := makeAddr_small p (by omega)
    have hpad : Addr4882.pad ⟨MakeAddr p 0⟩ = p := by
      rw [Addr4882.pad, hmk]
      exact hgp
    have hvs : Instrument.visa_string ⟨⟨b⟩, ⟨MakeAddr p 0⟩⟩ =
        (['G', 'P', 'I', 'B'] ++ intDecimal b)
          ++ ':' :: ':' :: (natDecimal p ++ ':' :: ':' :: ['I', 'N', 'S', 'T', 'R']) := by
      rw [Instrument.visa_string]
      show (['G', 'P', 'I', 'B'] ++ intDecimal b
          ++ [':', ':'] ++ natDecimal (Addr4882.pad ⟨MakeAddr p 0⟩) ++ [':', ':']
          ++ ['I', 'N', 'S', 'T', 'R'] : List Char) = _
      rw [hpad]
      simp [List.append_assoc]
    have hnc1 : ∀ c ∈ ['G', 'P', 'I', 'B'] ++ intDecimal b, c ≠ ':' := by
      intro c hc
      rcases List.mem_append.mp hc with hc | hc
      · fin_cases hc <;> decide
      · exact intDecimal_no_colon b c hc
    have hsplit : splitColons (Instrument.visa_string ⟨⟨b⟩, ⟨MakeAddr p 0⟩⟩) =
        [['G', 'P', 'I', 'B'] ++ intDecimal b, natDecimal p, ['I', 'N', 'S', 'T', 'R']] := by
      rw [hvs, splitColons_noColon_append _ _ hnc1,
        splitColons_noColon_append _ _ (natDecimal_no_colon p)]
      rfl
    unfold Instrument.from_visa_string
    rw [hsplit]
    simp only [List.length_cons, List.length_nil, List.getD_cons_zero, List.getD_cons_succ]
    rw [if_neg (by norm_num)]
    rw [List.take_left' (by rfl), if_pos rfl]
    rw [List.drop_left' (by rfl)]
    rw [from_str_radix_intDecimal b h1 h2]
    rw [from_str_radix_natDecimal p (by omega)]
    show (PrimaryAddress.new ((p : Nat) : Int) >>= fun pa =>
        Addr4882.new pa SecondaryAddress.dflt >>= fun a =>
        (Except.ok ⟨⟨b⟩, a⟩ : Except GpibError Instrument)) =
      Except.ok ⟨⟨b⟩, ⟨MakeAddr p 0⟩⟩
    rw [PrimaryAddress.new, if_pos ⟨by positivity, by exact_mod_cast hp⟩]
    show (Addr4882.new ⟨(p : Int)⟩ SecondaryAddress.dflt >>= fun a =>
        (Except.ok ⟨⟨b⟩, a⟩ : Except GpibError Instrument)) =
      Except.ok ⟨⟨b⟩, ⟨MakeAddr p 0⟩⟩
    rw [Addr4882.new,
      show ((⟨(p : Int)⟩ : PrimaryAddress)).as_pad = (p : Int) from rfl,
      show SecondaryAddress.dflt.as_sad = (0 : Int) from rfl,
      if_pos ⟨by positivity, by exact_mod_cast (show p ≤ 65535 by omega)⟩,
      if_pos (by norm_num)]
    rfl
  have hser : Instrument.visa_string ⟨⟨0⟩, ⟨1⟩⟩ =
      ['G', 'P', 'I', 'B', '0', ':', ':', '1', ':', ':', 'I', 'N', 'S', 'T', 'R'] := by
    rw [Instrument.visa_string,
      show Addr4882.pad ⟨1⟩ = 1 from (makeAddr_small 1 (by norm_num)).2,
      show intDecimal 0 = ['0'] from by simp [intDecimal, natDecimal],
      show natDecimal 1 = ['1'] from by simp [natDecimal, decDigitChar]]
    rfl
  have haddr : (⟨1⟩ : Addr4882) = ⟨MakeAddr 1 0⟩ := by
    rw [(makeAddr_small 1 (by norm_num)).1]
  refine ⟨main, ?_, hser⟩
  rw [← hser, haddr]
  exact main 0 1 (by norm_num) (by norm_num) (by norm_num)

/-- Witness for C9: the general serialize-reparse round trip applied at
board 7, primary 12. -/
theorem visa_string_roundtrip_witness :
    Instrument.from_visa_string (Instrument.visa_string ⟨⟨7⟩, ⟨MakeAddr 12 0⟩⟩) =
      .ok ⟨⟨7⟩, ⟨MakeAddr 12 0⟩⟩ :=
  visa_string_roundtrip.1 7 12 (by norm_num) (by norm_num) (by norm_num)

end LinuxGpibRs
